import Mathlib

/-!
Verification of the security core of the COREos backend
(`src/backend/src/security/{encryption,jwt,authorization,authentication}.py`
and `src/backend/src/config/security.py`) against its natural-language
specification.

Bytes are modelled as natural numbers; genuine bytes carry the bound
`b < 256` as hypotheses or by construction.  Python strings appear in two
guises: text handled character-wise is a `List Nat` of Unicode code points,
and incidental strings (keys of dictionaries, error messages, secrets) are
Lean `String`s.
-/

deriving instance DecidableEq for Except

namespace SecurityCore

/-! ## Python exception model

`utils/exceptions.py` defines `ValidationException` and
`AuthenticationException`, both carrying a message and a stable error code
(the optional `details` dict is dropped here; no claim mentions it).
Low-level Python errors that escape the security modules are modelled by
dedicated constructors. -/

structure PyError where
  message : String
  errorCode : String
deriving DecidableEq, Repr

inductive PyException where
  /-- ValidationException (used by the encryption module). -/
  | validation (e : PyError)
  /-- AuthenticationException (used by the jwt / auth / rbac modules). -/
  | auth (e : PyError)
  /-- UnboundLocalError: a `finally: del name` block running after an
  exception that was raised before `name` was assigned. -/
  | unboundLocal (name : String)
  /-- AttributeError: reading an instance attribute that was never
  assigned. -/
  | attributeError (name : String)
deriving DecidableEq, Repr

/-! ## Base64 (Python `base64.b64encode` / `b64decode`)

Standard RFC 4648 alphabet, as used by `encryption.py` for the transport
encoding of sealed payloads.  Characters are ASCII codes; 61 is the pad
character. -/

def b64CharOf (n : Nat) : Nat :=
  if n < 26 then 65 + n
  else if n < 52 then 97 + (n - 26)
  else if n < 62 then 48 + (n - 52)
  else if n = 62 then 43
  else 47

def b64IndexOf (c : Nat) : Option Nat :=
  if 65 ≤ c ∧ c ≤ 90 then some (c - 65)
  else if 97 ≤ c ∧ c ≤ 122 then some (26 + (c - 97))
  else if 48 ≤ c ∧ c ≤ 57 then some (52 + (c - 48))
  else if c = 43 then some 62
  else if c = 47 then some 63
  else none

def b64encode : List Nat → List Nat
  | [] => []
  | [a] => [b64CharOf (a / 4), b64CharOf (a % 4 * 16), 61, 61]
  | [a, b] => [b64CharOf (a / 4), b64CharOf (a % 4 * 16 + b / 16), b64CharOf (b % 16 * 4), 61]
  | a :: b :: c :: rest =>
      b64CharOf (a / 4) :: b64CharOf (a % 4 * 16 + b / 16) ::
      b64CharOf (b % 16 * 4 + c / 64) :: b64CharOf (c % 64) :: b64encode rest

/-- Decoder for well-padded base64 text (CPython discards non-alphabet
characters before decoding; payloads produced by `b64encode` never contain
such characters, so the strict reading below agrees with CPython on every
input that occurs in the claims). -/
def b64decode : List Nat → Option (List Nat)
  | [] => some []
  | c1 :: c2 :: c3 :: c4 :: rest =>
    match b64IndexOf c1, b64IndexOf c2 with
    | some i1, some i2 =>
      if c3 = 61 then
        if c4 = 61 ∧ rest = [] then some [i1 * 4 + i2 / 16] else none
      else
        match b64IndexOf c3 with
        | some i3 =>
          if c4 = 61 then
            if rest = [] then some [i1 * 4 + i2 / 16, i2 % 16 * 16 + i3 / 4] else none
          else
            match b64IndexOf c4 with
            | some i4 =>
              match b64decode rest with
              | some tail =>
                  some ((i1 * 4 + i2 / 16) :: (i2 % 16 * 16 + i3 / 4) :: (i3 % 4 * 64 + i4) :: tail)
              | none => none
            | none => none
        | none => none
    | _, _ => none
  | _ => none

theorem b64IndexOf_b64CharOf : ∀ n, n < 64 → b64IndexOf (b64CharOf n) = some n := by
  decide

theorem b64CharOf_ne_pad : ∀ n, n < 64 → b64CharOf n ≠ 61 := by
  decide

theorem b64decode_b64encode : ∀ (l : List Nat), (∀ b ∈ l, b < 256) →
    b64decode (b64encode l) = some l
  | [] , _ => by simp [b64encode, b64decode]
  | [a], h => by
      have ha : a < 256 := h a (by simp)
      have h1 := b64IndexOf_b64CharOf (a / 4) (by omega)
      have h2 := b64IndexOf_b64CharOf (a % 4 * 16) (by omega)
      simp only [b64encode, b64decode, h1, h2]
      simp
      omega
  | [a, b], h => by
      have ha : a < 256 := h a (by simp)
      have hb : b < 256 := h b (by simp)
      have h1 := b64IndexOf_b64CharOf (a / 4) (by omega)
      have h2 := b64IndexOf_b64CharOf (a % 4 * 16 + b / 16) (by omega)
      have h3 := b64IndexOf_b64CharOf (b % 16 * 4) (by omega)
      have hne := b64CharOf_ne_pad (b % 16 * 4) (by omega)
      simp only [b64encode, b64decode, h1, h2, h3, if_neg hne]
      simp
      omega
  | a :: b :: c :: rest, h => by
      have ha : a < 256 := h a (by simp)
      have hb : b < 256 := h b (by simp)
      have hc : c < 256 := h c (by simp)
      have h1 := b64IndexOf_b64CharOf (a / 4) (by omega)
      have h2 := b64IndexOf_b64CharOf (a % 4 * 16 + b / 16) (by omega)
      have h3 := b64IndexOf_b64CharOf (b % 16 * 4 + c / 64) (by omega)
      have h4 := b64IndexOf_b64CharOf (c % 64) (by omega)
      have hne3 := b64CharOf_ne_pad (b % 16 * 4 + c / 64) (by omega)
      have hne4 := b64CharOf_ne_pad (c % 64) (by omega)
      have ih := b64decode_b64encode rest (fun x hx => h x (by simp [hx]))
      match rest with
      | [] =>
        simp only [b64encode, b64decode, h1, h2, h3, h4, if_neg hne3, if_neg hne4]
        simp
        refine ⟨by omega, by omega, by omega⟩
      | d :: rest' =>
        simp only [b64encode, b64decode, h1, h2, h3, h4, if_neg hne3, if_neg hne4, ih]
        simp
        refine ⟨by omega, by omega, by omega⟩

/-! ## UTF-8 (Python `str.encode("utf-8")` / `bytes.decode("utf-8")`)

`encryption.py` encodes `str` plaintexts before sealing and decodes every
decrypted byte string with the strict (default) UTF-8 codec.  A Python
`str` is modelled as the list of its Unicode code points. -/

/-- True for code points the strict UTF-8 codec will encode: everything
below 0x110000 except the surrogate range 0xD800-0xDFFF. -/
def isScalarCodepoint (c : Nat) : Bool :=
  decide (c < 0x110000) && !(decide (0xD800 ≤ c) && decide (c < 0xE000))

def utf8EncodeChar (c : Nat) : List Nat :=
  if c < 0x80 then [c]
  else if c < 0x800 then [0xC0 + c / 0x40, 0x80 + c % 0x40]
  else if c < 0x10000 then
    [0xE0 + c / 0x1000, 0x80 + c / 0x40 % 0x40, 0x80 + c % 0x40]
  else
    [0xF0 + c / 0x40000, 0x80 + c / 0x1000 % 0x40, 0x80 + c / 0x40 % 0x40, 0x80 + c % 0x40]

def utf8Encode (s : List Nat) : List Nat := (s.map utf8EncodeChar).flatten

/-- Python `str.encode("utf-8")`: errors (returns `none`) on lone
surrogates, otherwise produces the UTF-8 bytes. -/
def pyEncodeUtf8 (s : List Nat) : Option (List Nat) :=
  if s.all isScalarCodepoint then some (utf8Encode s) else none

def isContByte (b : Nat) : Bool := decide (0x80 ≤ b) && decide (b < 0xC0)

/-- One step of the strict UTF-8 decoder: consumes the leading encoded
character, rejecting stray continuation bytes, overlong forms, surrogates
and code points above 0x10FFFF, exactly as CPython does. -/
def utf8DecodeOne : List Nat → Option (Nat × List Nat)
  | [] => none
  | b0 :: rest =>
    if b0 < 0x80 then some (b0, rest)
    else if b0 < 0xC2 then none
    else if b0 < 0xE0 then
      match rest with
      | b1 :: r =>
        if isContByte b1 then some ((b0 - 0xC0) * 0x40 + (b1 - 0x80), r) else none
      | [] => none
    else if b0 < 0xF0 then
      match rest with
      | b1 :: b2 :: r =>
        if isContByte b1 && isContByte b2 then
          if decide (0x800 ≤ (b0 - 0xE0) * 0x1000 + (b1 - 0x80) * 0x40 + (b2 - 0x80)) &&
             !(decide (0xD800 ≤ (b0 - 0xE0) * 0x1000 + (b1 - 0x80) * 0x40 + (b2 - 0x80)) &&
               decide ((b0 - 0xE0) * 0x1000 + (b1 - 0x80) * 0x40 + (b2 - 0x80) < 0xE000)) then
            some ((b0 - 0xE0) * 0x1000 + (b1 - 0x80) * 0x40 + (b2 - 0x80), r)
          else none
        else none
      | _ => none
    else if b0 < 0xF5 then
      match rest with
      | b1 :: b2 :: b3 :: r =>
        if isContByte b1 && isContByte b2 && isContByte b3 then
          if decide (0x10000 ≤ (b0 - 0xF0) * 0x40000 + (b1 - 0x80) * 0x1000 +
                       (b2 - 0x80) * 0x40 + (b3 - 0x80)) &&
             decide ((b0 - 0xF0) * 0x40000 + (b1 - 0x80) * 0x1000 +
                       (b2 - 0x80) * 0x40 + (b3 - 0x80) < 0x110000) then
            some ((b0 - 0xF0) * 0x40000 + (b1 - 0x80) * 0x1000 + (b2 - 0x80) * 0x40 + (b3 - 0x80), r)
          else none
        else none
      | _ => none
    else none

theorem utf8DecodeOne_length : ∀ (l : List Nat) (c : Nat) (r : List Nat),
    utf8DecodeOne l = some (c, r) → r.length < l.length := by
  intro l c r h
  match l with
  | [] => simp [utf8DecodeOne] at h
  | b0 :: rest =>
    match rest with
    | [] =>
      simp only [utf8DecodeOne] at h
      split_ifs at h <;> simp_all <;> omega
    | [b1] =>
      simp only [utf8DecodeOne] at h
      split_ifs at h <;> simp_all <;> omega
    | [b1, b2] =>
      simp only [utf8DecodeOne] at h
      split_ifs at h <;> simp_all <;> omega
    | b1 :: b2 :: b3 :: r3 =>
      simp only [utf8DecodeOne] at h
      split_ifs at h <;> simp_all <;> omega

/-- Fuel-bounded iteration of `utf8DecodeOne`; any fuel of at least the
input length gives the decoder fixpoint (see `utf8DecodeFuel_irrel`). -/
def utf8DecodeFuel : Nat → List Nat → Option (List Nat)
  | 0, l => if l.isEmpty then some [] else none
  | fuel + 1, l =>
    match utf8DecodeOne l with
    | some (c, r) => (utf8DecodeFuel fuel r).map (c :: ·)
    | none => if l.isEmpty then some [] else none

theorem utf8DecodeFuel_irrel : ∀ (f1 : Nat) (f2 : Nat) (l : List Nat),
    l.length ≤ f1 → l.length ≤ f2 → utf8DecodeFuel f1 l = utf8DecodeFuel f2 l := by
  intro f1
  induction f1 with
  | zero =>
    intro f2 l h1 _
    have : l = [] := by cases l <;> simp_all
    subst this
    cases f2 <;> simp [utf8DecodeFuel, utf8DecodeOne]
  | succ f1 ih =>
    intro f2 l h1 h2
    cases f2 with
    | zero =>
      have : l = [] := by cases l <;> simp_all
      subst this
      simp [utf8DecodeFuel, utf8DecodeOne]
    | succ f2 =>
      simp only [utf8DecodeFuel]
      cases hh : utf8DecodeOne l with
      | none => rfl
      | some cr =>
        obtain ⟨c, r⟩ := cr
        have hr := utf8DecodeOne_length l c r hh
        simp only [ih f2 r (by omega) (by omega)]

/-- Python `bytes.decode("utf-8")`, modelled as repeated application of
`utf8DecodeOne`. -/
def utf8Decode (l : List Nat) : Option (List Nat) := utf8DecodeFuel l.length l

theorem utf8Decode_eq (l : List Nat) :
    utf8Decode l = match utf8DecodeOne l with
      | some (c, r) => (utf8Decode r).map (c :: ·)
      | none => if l.isEmpty then some [] else none := by
  unfold utf8Decode
  cases l with
  | nil => simp [utf8DecodeFuel, utf8DecodeOne]
  | cons x t =>
    simp only [List.length_cons, utf8DecodeFuel]
    cases hh : utf8DecodeOne (x :: t) with
    | none => rfl
    | some cr =>
      obtain ⟨c, r⟩ := cr
      have hr := utf8DecodeOne_length (x :: t) c r hh
      simp only [utf8DecodeFuel_irrel t.length r.length r (by simp at hr; omega) (by omega)]

theorem utf8Decode_nil : utf8Decode [] = some [] := by
  rw [utf8Decode_eq]; simp [utf8DecodeOne]

theorem utf8DecodeOne_encodeChar (c : Nat) (h1 : isScalarCodepoint c = true) (rest : List Nat) :
    utf8DecodeOne (utf8EncodeChar c ++ rest) = some (c, rest) := by
  simp only [isScalarCodepoint, Bool.and_eq_true, Bool.not_eq_eq_eq_not, Bool.not_true,
    decide_eq_true_eq, Bool.and_eq_false_imp, decide_eq_false_iff_not, not_lt] at h1
  unfold utf8EncodeChar
  by_cases hc1 : c < 0x80
  · rw [if_pos hc1]
    simp only [List.cons_append, List.nil_append, utf8DecodeOne, if_pos hc1]
  · rw [if_neg hc1]
    by_cases hc2 : c < 0x800
    · rw [if_pos hc2]
      simp only [List.cons_append, List.nil_append, utf8DecodeOne]
      rw [if_neg (by omega), if_neg (by omega), if_pos (by omega),
        if_pos (show isContByte (0x80 + c % 0x40) = true by simp [isContByte]; omega)]
      have : (0xC0 + c / 0x40 - 0xC0) * 0x40 + (0x80 + c % 0x40 - 0x80) = c := by omega
      rw [this]
    · rw [if_neg hc2]
      by_cases hc3 : c < 0x10000
      · rw [if_pos hc3]
        simp only [List.cons_append, List.nil_append, utf8DecodeOne]
        rw [if_neg (by omega), if_neg (by omega), if_neg (by omega), if_pos (by omega)]
        have hval : (0xE0 + c / 0x1000 - 0xE0) * 0x1000 + (0x80 + c / 0x40 % 0x40 - 0x80) * 0x40 +
            (0x80 + c % 0x40 - 0x80) = c := by omega
        rw [if_pos (show (isContByte (0x80 + c / 0x40 % 0x40) && isContByte (0x80 + c % 0x40)) = true
              by simp [isContByte]; omega)]
        rw [if_pos]
        · rw [hval]
        · rw [hval]
          have h2 := h1.2
          simp
          omega
      · rw [if_neg hc3]
        simp only [List.cons_append, List.nil_append, utf8DecodeOne]
        have hc4 : c < 0x110000 := h1.1
        rw [if_neg (by omega), if_neg (by omega), if_neg (by omega), if_neg (by omega),
          if_pos (by omega)]
        have hval : (0xF0 + c / 0x40000 - 0xF0) * 0x40000 +
            (0x80 + c / 0x1000 % 0x40 - 0x80) * 0x1000 +
            (0x80 + c / 0x40 % 0x40 - 0x80) * 0x40 + (0x80 + c % 0x40 - 0x80) = c := by omega
        rw [if_pos (show (isContByte (0x80 + c / 0x1000 % 0x40) &&
              isContByte (0x80 + c / 0x40 % 0x40) && isContByte (0x80 + c % 0x40)) = true
              by simp [isContByte]; omega)]
        rw [if_pos]
        · rw [hval]
        · rw [hval]
          simp
          omega

theorem utf8Decode_encodeChar (c : Nat) (h1 : isScalarCodepoint c = true) (rest : List Nat) :
    utf8Decode (utf8EncodeChar c ++ rest) = (utf8Decode rest).map (c :: ·) := by
  rw [utf8Decode_eq, utf8DecodeOne_encodeChar c h1 rest]

theorem utf8Decode_utf8Encode (s : List Nat) (h : s.all isScalarCodepoint = true) :
    utf8Decode (utf8Encode s) = some s := by
  induction s with
  | nil => simp [utf8Encode, utf8Decode_nil]
  | cons c s ih =>
    simp only [List.all_cons, Bool.and_eq_true] at h
    have he : utf8Encode (c :: s) = utf8EncodeChar c ++ utf8Encode s := by
      simp [utf8Encode]
    rw [he, utf8Decode_encodeChar c h.1, ih h.2]
    simp

/-! ## AES-256-GCM model and `security/encryption.py`

Constants from `encryption.py`. -/

def ENCRYPTION_KEY_LENGTH : Nat := 32
def GCM_NONCE_LENGTH : Nat := 12
def GCM_TAG_LENGTH : Nat := 16

def zipXor (a b : List Nat) : List Nat := List.zipWith (· ^^^ ·) a b

def xorFold (l : List Nat) : Nat := l.foldl (· ^^^ ·) 0

/-- Modelled from the spec: the AEAD primitive used by `encryption.py` is
AES-256-GCM from the external `cryptography` library (not part of this
repository); the spec (§4.1) requires an AEAD whose decryption performs a
single atomic tag check and returns no partial plaintext.  The GCM
structure is kept — counter-mode keystream XORed over the plaintext, and a
16-byte tag that is a function of key, nonce and ciphertext — while the
AES block permutation inside both parts is replaced by a concrete byte
mixer (the keystream below).  Every property proved about sealed payloads
goes through the AEAD interface only. -/
def gcmKeystream (key nonce : List Nat) (n : Nat) : List Nat :=
  (List.range n).map fun i => key.getD (i % 32) 0 ^^^ nonce.getD (i % 12) 0 ^^^ (i % 256)

/-- Modelled from the spec: the 16-byte GCM authentication tag over the
ciphertext (no associated data is used, per spec §4.1), as a function of
key, nonce and ciphertext.  Byte `i` mixes an XOR checksum of the whole
ciphertext with key, nonce and length material, so any single-bit change
of the ciphertext changes every tag byte. -/
def gcmTag (key nonce ct : List Nat) : List Nat :=
  (List.range GCM_TAG_LENGTH).map fun i =>
    xorFold ct ^^^ key.getD (i % 32) 0 ^^^ nonce.getD (i % 12) 0 ^^^ (ct.length % 256) ^^^ i

/-- Python `Union[str, bytes]` plaintext argument of `encrypt_data`. -/
inductive PyData where
  | ofStr (s : List Nat)
  | ofBytes (b : List Nat)
deriving DecidableEq, Repr

/-- `encrypt_data(data, key)` from `encryption.py`.  `nonce` stands for
the 12 bytes returned by `os.urandom`, `defaultKey` for
`base64.urlsafe_b64decode(SECRET_KEY)`.  The result is the base64 text
(character codes) of `nonce || ciphertext || tag`.  Any exception inside
the `try` block is re-raised as ValidationException `crypto_003`, except
that a failing `data.encode("utf-8")` leaves `encryption_key` unassigned,
so the `finally: del encryption_key` block raises UnboundLocalError. -/
def encrypt_data (data : PyData) (key : Option (List Nat)) (defaultKey nonce : List Nat) :
    Except PyException (List Nat) :=
  match data with
  | .ofStr s =>
    match pyEncodeUtf8 s with
    | none => .error (.unboundLocal "encryption_key")
    | some bytes => encryptBytes bytes key defaultKey nonce
  | .ofBytes b => encryptBytes b key defaultKey nonce
where
  encryptBytes (bytes : List Nat) (key : Option (List Nat)) (defaultKey nonce : List Nat) :
      Except PyException (List Nat) :=
    let encryptionKey := key.getD defaultKey
    -- a wrong-length key raises ValidationException crypto_002, which the
    -- blanket `except Exception` immediately rewraps as crypto_003
    if encryptionKey.length ≠ ENCRYPTION_KEY_LENGTH then
      .error (.validation ⟨"Encryption failed", "crypto_003"⟩)
    else
      let ct := zipXor bytes (gcmKeystream encryptionKey nonce bytes.length)
      .ok (b64encode (nonce ++ ct ++ gcmTag encryptionKey nonce ct))

/-- `decrypt_data(encrypted_data, key)` from `encryption.py`: base64
decode, split `nonce(12) || ciphertext || tag(16)` by fixed offsets
(Python slices `[:12]`, `[-16:]`, `[12:-16]`), open the AEAD, and decode
the plaintext as UTF-8 text.  InvalidTag maps to crypto_005; every other
failure inside the `try` (wrong key length crypto_004 rewrapped, UTF-8
decode error) maps to crypto_006; a base64 error is raised before
`decryption_key` is assigned, so the `finally: del decryption_key` block
turns it into UnboundLocalError.  Payloads shorter than 28 bytes are
degenerate (the nonce and tag slices overlap) and are collapsed to the
generic crypto_006 failure; no genuine sealed payload is that short. -/
def decrypt_data (encrypted : List Nat) (key : Option (List Nat)) (defaultKey : List Nat) :
    Except PyException (List Nat) :=
  match b64decode encrypted with
  | none => .error (.unboundLocal "decryption_key")
  | some encryptedBytes =>
    let decryptionKey := key.getD defaultKey
    if decryptionKey.length ≠ ENCRYPTION_KEY_LENGTH then
      .error (.validation ⟨"Decryption failed", "crypto_006"⟩)
    else if encryptedBytes.length < GCM_NONCE_LENGTH + GCM_TAG_LENGTH then
      .error (.validation ⟨"Decryption failed", "crypto_006"⟩)
    else
      let nonce := encryptedBytes.take GCM_NONCE_LENGTH
      let tag := encryptedBytes.drop (encryptedBytes.length - GCM_TAG_LENGTH)
      let ct := (encryptedBytes.drop GCM_NONCE_LENGTH).take
        (encryptedBytes.length - GCM_TAG_LENGTH - GCM_NONCE_LENGTH)
      if gcmTag decryptionKey nonce ct = tag then
        match utf8Decode (zipXor ct (gcmKeystream decryptionKey nonce ct.length)) with
        | some s => .ok s
        | none => .error (.validation ⟨"Decryption failed", "crypto_006"⟩)
      else .error (.validation ⟨"Authentication failed - data may be corrupted", "crypto_005"⟩)

/-! Helper lemmas about the AEAD model. -/

theorem length_gcmKeystream (key nonce : List Nat) (n : Nat) :
    (gcmKeystream key nonce n).length = n := by simp [gcmKeystream]

theorem length_gcmTag (key nonce ct : List Nat) :
    (gcmTag key nonce ct).length = GCM_TAG_LENGTH := by simp [gcmTag]

theorem zipXor_cancel : ∀ (a b : List Nat), a.length ≤ b.length →
    zipXor (zipXor a b) b = a
  | [], _, _ => by simp [zipXor]
  | x :: a, y :: b, h => by
      have := zipXor_cancel a b (by simpa using h)
      simp only [zipXor, List.zipWith] at this ⊢
      simp [this, Nat.xor_cancel_right]
  | x :: a, [], h => by simp at h

theorem getD_lt_256 : ∀ (l : List Nat), (∀ b ∈ l, b < 256) → ∀ (i : Nat), l.getD i 0 < 256
  | [], _, _ => by simp
  | x :: l, h, 0 => by simpa using h x (by simp)
  | x :: l, h, i + 1 => by
      simpa using getD_lt_256 l (fun b hb => h b (by simp [hb])) i

theorem xor_lt_256 {a b : Nat} (ha : a < 256) (hb : b < 256) : a ^^^ b < 256 := by
  have := Nat.xor_lt_two_pow (n := 8) (by simpa using ha) (by simpa using hb)
  simpa using this

theorem gcmKeystream_lt_256 (key nonce : List Nat) (n : Nat)
    (hk : ∀ b ∈ key, b < 256) (hn : ∀ b ∈ nonce, b < 256) :
    ∀ b ∈ gcmKeystream key nonce n, b < 256 := by
  intro b hb
  simp only [gcmKeystream, List.mem_map, List.mem_range] at hb
  obtain ⟨i, _, rfl⟩ := hb
  exact xor_lt_256 (xor_lt_256 (getD_lt_256 key hk _) (getD_lt_256 nonce hn _))
    (Nat.mod_lt _ (by omega))

theorem foldl_xor_lt_256 : ∀ (l : List Nat) (a : Nat), (∀ b ∈ l, b < 256) → a < 256 →
    l.foldl (· ^^^ ·) a < 256
  | [], a, _, ha => ha
  | x :: l, a, h, ha => by
      simp only [List.foldl_cons]
      exact foldl_xor_lt_256 l (a ^^^ x) (fun b hb => h b (by simp [hb]))
        (xor_lt_256 ha (h x (by simp)))

theorem xorFold_lt_256 (l : List Nat) (h : ∀ b ∈ l, b < 256) : xorFold l < 256 :=
  foldl_xor_lt_256 l 0 h (by omega)

theorem gcmTag_lt_256 (key nonce ct : List Nat)
    (hk : ∀ b ∈ key, b < 256) (hn : ∀ b ∈ nonce, b < 256) (hc : ∀ b ∈ ct, b < 256) :
    ∀ b ∈ gcmTag key nonce ct, b < 256 := by
  intro b hb
  simp only [gcmTag, List.mem_map, List.mem_range, GCM_TAG_LENGTH] at hb
  obtain ⟨i, hi, rfl⟩ := hb
  exact xor_lt_256 (xor_lt_256 (xor_lt_256 (xor_lt_256 (xorFold_lt_256 ct hc)
    (getD_lt_256 key hk _)) (getD_lt_256 nonce hn _))
    (Nat.mod_lt _ (by omega))) (by omega)

theorem zipXor_lt_256 : ∀ (a b : List Nat), (∀ x ∈ a, x < 256) → (∀ x ∈ b, x < 256) →
    ∀ x ∈ zipXor a b, x < 256
  | [], _, _, _ => by simp [zipXor]
  | x :: a, [], _, _ => by simp [zipXor]
  | x :: a, y :: b, ha, hb => by
      intro z hz
      simp only [zipXor, List.zipWith_cons_cons, List.mem_cons] at hz
      rcases hz with rfl | hz
      · exact xor_lt_256 (ha x (by simp)) (hb y (by simp))
      · exact zipXor_lt_256 a b (fun u hu => ha u (by simp [hu]))
          (fun u hu => hb u (by simp [hu])) z hz

/-- Ciphertext produced by `encrypt_data` for plaintext bytes `p`. -/
def ctOf (key nonce p : List Nat) : List Nat := zipXor p (gcmKeystream key nonce p.length)

/-- Authentication tag produced by `encrypt_data` for plaintext bytes `p`. -/
def tagOf (key nonce p : List Nat) : List Nat := gcmTag key nonce (ctOf key nonce p)

/-- The raw sealed payload `nonce || ciphertext || tag` before base64. -/
def sealedRawOf (key nonce p : List Nat) : List Nat :=
  nonce ++ (ctOf key nonce p ++ tagOf key nonce p)

theorem length_ctOf (key nonce p : List Nat) : (ctOf key nonce p).length = p.length := by
  simp [ctOf, zipXor, length_gcmKeystream]

theorem ctOf_lt_256 (key nonce p : List Nat) (hk : ∀ b ∈ key, b < 256)
    (hn : ∀ b ∈ nonce, b < 256) (hp : ∀ b ∈ p, b < 256) :
    ∀ b ∈ ctOf key nonce p, b < 256 :=
  zipXor_lt_256 p _ hp (gcmKeystream_lt_256 key nonce p.length hk hn)

theorem encrypt_data_ofBytes_ok (key nonce p d : List Nat)
    (hklen : key.length = ENCRYPTION_KEY_LENGTH) :
    encrypt_data (.ofBytes p) (some key) d nonce = .ok (b64encode (sealedRawOf key nonce p)) := by
  simp [encrypt_data, encrypt_data.encryptBytes, hklen, sealedRawOf, ctOf, tagOf]

theorem take_len_append (a b : List Nat) : (a ++ b).take a.length = a := by
  induction a with
  | nil => simp
  | cons x a ih => simp [ih]

theorem drop_len_append (a b : List Nat) : (a ++ b).drop a.length = b := by
  induction a with
  | nil => simp
  | cons x a ih => simp [ih]

/-- How `decrypt_data` behaves on the base64 encoding of any well-shaped
raw payload `nonce(12) || ct || tag(16)`: the fixed-offset slices recover
the three components, and the result is governed by the atomic tag
comparison. -/
theorem decrypt_sealed (key nonce ct tg d : List Nat)
    (hklen : key.length = ENCRYPTION_KEY_LENGTH)
    (hnlen : nonce.length = GCM_NONCE_LENGTH) (hn : ∀ b ∈ nonce, b < 256)
    (hc : ∀ b ∈ ct, b < 256)
    (htlen : tg.length = GCM_TAG_LENGTH) (ht : ∀ b ∈ tg, b < 256) :
    decrypt_data (b64encode (nonce ++ (ct ++ tg))) (some key) d =
      if gcmTag key nonce ct = tg then
        match utf8Decode (zipXor ct (gcmKeystream key nonce ct.length)) with
        | some s => .ok s
        | none => .error (.validation ⟨"Decryption failed", "crypto_006"⟩)
      else .error (.validation ⟨"Authentication failed - data may be corrupted", "crypto_005"⟩) := by
  have hraw : ∀ b ∈ nonce ++ (ct ++ tg), b < 256 := by
    intro b hb
    rcases List.mem_append.1 hb with h | h
    · exact hn b h
    · rcases List.mem_append.1 h with h | h
      · exact hc b h
      · exact ht b h
  have hlen : (nonce ++ (ct ++ tg)).length = 12 + (ct.length + 16) := by
    simp [hnlen, htlen, GCM_NONCE_LENGTH, GCM_TAG_LENGTH]
  have htake : (nonce ++ (ct ++ tg)).take GCM_NONCE_LENGTH = nonce := by
    rw [show GCM_NONCE_LENGTH = nonce.length from hnlen.symm]
    exact take_len_append _ _
  have hdroptag : (nonce ++ (ct ++ tg)).drop (12 + (ct.length + 16) - GCM_TAG_LENGTH) = tg := by
    rw [show nonce ++ (ct ++ tg) = (nonce ++ ct) ++ tg by simp,
      show 12 + (ct.length + 16) - GCM_TAG_LENGTH = ((nonce ++ ct) : List Nat).length by
        simp [hnlen, GCM_NONCE_LENGTH, GCM_TAG_LENGTH]; omega]
    exact drop_len_append _ _
  have hctslice : ((nonce ++ (ct ++ tg)).drop GCM_NONCE_LENGTH).take
      (12 + (ct.length + 16) - GCM_TAG_LENGTH - GCM_NONCE_LENGTH) = ct := by
    rw [show GCM_NONCE_LENGTH = nonce.length from hnlen.symm, drop_len_append,
      show 12 + (ct.length + 16) - GCM_TAG_LENGTH - nonce.length = ct.length by
        simp [hnlen, GCM_NONCE_LENGTH, GCM_TAG_LENGTH]; omega]
    exact take_len_append _ _
  unfold decrypt_data
  rw [b64decode_b64encode _ hraw]
  simp only [Option.getD_some, hklen, hlen]
  rw [if_neg (by simp [ENCRYPTION_KEY_LENGTH]),
    if_neg (by simp [GCM_NONCE_LENGTH, GCM_TAG_LENGTH]; omega)]
  rw [htake, hdroptag, hctslice]

/-! Lemmas showing a single-bit flip in ciphertext or tag always changes
the recomputed tag (so the atomic tag equality check fails). -/

theorem foldl_xor_init : ∀ (l : List Nat) (a : Nat),
    l.foldl (· ^^^ ·) a = a ^^^ l.foldl (· ^^^ ·) 0 := by
  intro l
  induction l with
  | nil => simp
  | cons x t ih =>
    intro a
    simp only [List.foldl_cons]
    rw [ih (a ^^^ x), ih (0 ^^^ x), Nat.zero_xor, Nat.xor_assoc]

theorem xorFold_set : ∀ (l : List Nat) (k e : Nat), k < l.length →
    xorFold (l.set k (l.getD k 0 ^^^ e)) = xorFold l ^^^ e
  | [], k, e, h => by simp at h
  | x :: t, 0, e, _ => by
      simp only [List.set_cons_zero, List.getD_cons_zero, xorFold, List.foldl_cons, Nat.zero_xor]
      rw [foldl_xor_init t (x ^^^ e), foldl_xor_init t x]
      rw [Nat.xor_assoc x e, Nat.xor_comm e (t.foldl (· ^^^ ·) 0), ← Nat.xor_assoc]
  | x :: t, k + 1, e, h => by
      simp only [List.set_cons_succ, List.getD_cons_succ, xorFold, List.foldl_cons, Nat.zero_xor]
      rw [foldl_xor_init _ x, foldl_xor_init t x]
      have ih := xorFold_set t k e (by simpa using h)
      simp only [xorFold] at ih
      rw [ih, ← Nat.xor_assoc]

theorem xor_right_cancel {a b c : Nat} (h : a ^^^ c = b ^^^ c) : a = b := by
  have := congrArg (· ^^^ c) h
  simpa [Nat.xor_cancel_right] using this

theorem xor_flip_ne {a e : Nat} (he : e ≠ 0) : a ^^^ e ≠ a := by
  intro h
  apply he
  have : a ^^^ e = a ^^^ 0 := by simpa using h
  have h2 := congrArg (a ^^^ ·) this
  simpa [← Nat.xor_assoc, Nat.xor_self] using h2

theorem getElem?_set_self : ∀ (l : List Nat) (k v : Nat), k < l.length →
    (l.set k v)[k]? = some v
  | [], _, _, h => by simp at h
  | x :: t, 0, v, _ => by simp
  | x :: t, k + 1, v, h => by
      simpa using getElem?_set_self t k v (by simpa using h)

theorem getElem?_eq_getD : ∀ (l : List Nat) (k : Nat), k < l.length →
    l[k]? = some (l.getD k 0)
  | [], _, h => by simp at h
  | x :: t, 0, _ => by simp
  | x :: t, k + 1, h => by
      simpa using getElem?_eq_getD t k (by simpa using h)

theorem mem_set_bound : ∀ (l : List Nat) (k v : Nat), (∀ b ∈ l, b < 256) → v < 256 →
    ∀ b ∈ l.set k v, b < 256
  | [], _, _, _, _ => by simp
  | x :: t, 0, v, h, hv => by
      intro b hb
      rcases List.mem_cons.1 hb with rfl | hb
      · exact hv
      · exact h b (by simp [hb])
  | x :: t, k + 1, v, h, hv => by
      intro b hb
      rcases List.mem_cons.1 hb with rfl | hb
      · exact h b (by simp)
      · exact mem_set_bound t k v (fun u hu => h u (by simp [hu])) hv b hb

theorem gcmTag_getElem_zero (key nonce ct : List Nat) :
    (gcmTag key nonce ct)[0]? =
      some (xorFold ct ^^^ key.getD 0 0 ^^^ nonce.getD 0 0 ^^^ (ct.length % 256) ^^^ 0) := by
  simp [gcmTag, GCM_TAG_LENGTH, List.getElem?_map]

theorem gcmTag_ne_of_ct_flip (key nonce ct : List Nat) (k e : Nat)
    (hk : k < ct.length) (he : e ≠ 0) :
    gcmTag key nonce (ct.set k (ct.getD k 0 ^^^ e)) ≠ gcmTag key nonce ct := by
  intro h
  have h0 := congrArg (fun l : List Nat => l[0]?) h
  simp only [gcmTag_getElem_zero, List.length_set, Option.some.injEq] at h0
  have h1 := xor_right_cancel h0
  have h2 := xor_right_cancel h1
  have h3 := xor_right_cancel h2
  have h4 := xor_right_cancel h3
  rw [xorFold_set ct k e hk] at h4
  exact xor_flip_ne he h4

theorem set_flip_ne (l : List Nat) (k e : Nat) (hk : k < l.length) (he : e ≠ 0) :
    l.set k (l.getD k 0 ^^^ e) ≠ l := by
  intro h
  have h0 := congrArg (fun x : List Nat => x[k]?) h
  simp only [getElem?_set_self l k _ hk, getElem?_eq_getD l k hk, Option.some.injEq] at h0
  exact xor_flip_ne he h0

theorem utf8EncodeChar_lt_256 (c : Nat) (hc : c < 0x110000) :
    ∀ b ∈ utf8EncodeChar c, b < 256 := by
  unfold utf8EncodeChar
  split_ifs with h1 h2 h3 <;> intro b hb <;> simp only [List.mem_cons, List.not_mem_nil] at hb <;>
    rcases hb with rfl | hb <;> first
      | omega
      | (rcases hb with rfl | hb <;> first
          | omega
          | (rcases hb with rfl | hb <;> first
              | omega
              | (rcases hb with rfl | hb <;> first | omega | simp_all)))

theorem utf8Encode_lt_256 (s : List Nat) (hs : s.all isScalarCodepoint = true) :
    ∀ b ∈ utf8Encode s, b < 256 := by
  intro b hb
  simp only [utf8Encode, List.mem_flatten, List.mem_map] at hb
  obtain ⟨l, ⟨c, hc, rfl⟩, hbl⟩ := hb
  have hcs : isScalarCodepoint c = true := by
    have := List.all_eq_true.1 hs c hc
    simpa using this
  have : c < 0x110000 := by
    simp only [isScalarCodepoint, Bool.and_eq_true, decide_eq_true_eq] at hcs
    exact hcs.1
  exact utf8EncodeChar_lt_256 c this b hbl

/-- Decrypting the untampered sealed payload of plaintext bytes `p` under
the same key yields the UTF-8 decoding of `p` — the decrypted bytes are
exactly `p`, but `decrypt_data` returns `decrypted_data.decode("utf-8")`,
which fails with crypto_006 when `p` is not valid UTF-8. -/
theorem decrypt_encryptBytes (key nonce p d : List Nat)
    (hklen : key.length = ENCRYPTION_KEY_LENGTH) (hk : ∀ b ∈ key, b < 256)
    (hnlen : nonce.length = GCM_NONCE_LENGTH) (hn : ∀ b ∈ nonce, b < 256)
    (hp : ∀ b ∈ p, b < 256) :
    decrypt_data (b64encode (sealedRawOf key nonce p)) (some key) d =
      match utf8Decode p with
      | some s => .ok s
      | none => .error (.validation ⟨"Decryption failed", "crypto_006"⟩) := by
  have hct := ctOf_lt_256 key nonce p hk hn hp
  have hrw := decrypt_sealed key nonce (ctOf key nonce p) (tagOf key nonce p) d hklen hnlen hn
    hct (length_gcmTag key nonce _) (gcmTag_lt_256 key nonce _ hk hn hct)
  have hks : zipXor (ctOf key nonce p) (gcmKeystream key nonce (ctOf key nonce p).length) = p := by
    rw [length_ctOf]
    exact zipXor_cancel p _ (by rw [length_gcmKeystream])
  rw [sealedRawOf, hrw]
  simp only [tagOf]
  rw [if_pos trivial, hks]

/-- C1: the claim `decrypt_data(encrypt_data(p, k), k) = p` for arbitrary
byte strings fails at the one-byte plaintext `p = [0x80]` (not valid
UTF-8): encryption succeeds, but `decrypt_data` ends with
`decrypted_data.decode("utf-8")`, whose UnicodeDecodeError is swallowed by
the blanket `except Exception` and re-raised as ValidationException
crypto_006 — the original bytes are never returned. -/
theorem c1_decrypt_not_bytes_counterexample :
    encrypt_data (.ofBytes [128]) (some (List.replicate 32 7)) [] (List.replicate 12 3) =
      .ok (b64encode (sealedRawOf (List.replicate 32 7) (List.replicate 12 3) [128])) ∧
    decrypt_data (b64encode (sealedRawOf (List.replicate 32 7) (List.replicate 12 3) [128]))
      (some (List.replicate 32 7)) [] =
      .error (.validation ⟨"Decryption failed", "crypto_006"⟩) := by
  constructor
  · decide
  · decide

/-- C1 (amended): for every 32-byte key and 12-byte nonce, decrypting the
sealed payload of plaintext bytes `p` under the same key returns the
UTF-8 decoding of `p` as text when `p` is valid UTF-8 and fails with
ValidationException crypto_006 otherwise; in particular every `str`
plaintext (scalar code points) round-trips to the identical string. -/
theorem c1_roundtrip_utf8_text (key nonce d : List Nat)
    (hklen : key.length = ENCRYPTION_KEY_LENGTH) (hk : ∀ b ∈ key, b < 256)
    (hnlen : nonce.length = GCM_NONCE_LENGTH) (hn : ∀ b ∈ nonce, b < 256) :
    (∀ (p : List Nat), (∀ b ∈ p, b < 256) → ∀ out,
      encrypt_data (.ofBytes p) (some key) d nonce = .ok out →
      decrypt_data out (some key) d =
        match utf8Decode p with
        | some s => .ok s
        | none => .error (.validation ⟨"Decryption failed", "crypto_006"⟩)) ∧
    (∀ (s : List Nat), s.all isScalarCodepoint = true → ∀ out,
      encrypt_data (.ofStr s) (some key) d nonce = .ok out →
      decrypt_data out (some key) d = .ok s) := by
  constructor
  · intro p hp out hout
    rw [encrypt_data_ofBytes_ok key nonce p d hklen] at hout
    cases hout
    exact decrypt_encryptBytes key nonce p d hklen hk hnlen hn hp
  · intro s hs out hout
    have henc : encrypt_data (.ofStr s) (some key) d nonce =
        encrypt_data (.ofBytes (utf8Encode s)) (some key) d nonce := by
      simp [encrypt_data, pyEncodeUtf8, hs]
    rw [henc, encrypt_data_ofBytes_ok key nonce _ d hklen] at hout
    cases hout
    rw [decrypt_encryptBytes key nonce _ d hklen hk hnlen hn (utf8Encode_lt_256 s hs),
      utf8Decode_utf8Encode s hs]

/-- Witness for C1 (amended): a concrete key, nonce and the one-character
plaintext "h" ([104]); both the bytes and the text part of the round trip
produce `.ok [104]`. -/
theorem c1_roundtrip_utf8_text_witness :
    decrypt_data (b64encode (sealedRawOf (List.replicate 32 7) (List.replicate 12 3) [104]))
      (some (List.replicate 32 7)) [] = .ok [104] := by
  have h := (c1_roundtrip_utf8_text (List.replicate 32 7) (List.replicate 12 3) []
    (by decide) (by decide) (by decide) (by decide)).1 [104] (by decide)
    (b64encode (sealedRawOf (List.replicate 32 7) (List.replicate 12 3) [104]))
    (encrypt_data_ofBytes_ok _ _ _ _ (by decide))
  rw [h]
  decide

/-- C2: flipping any single bit of the ciphertext or of the tag inside a
sealed payload makes `decrypt_data` fail with ValidationException
crypto_005 ("Authentication failed - data may be corrupted", the
DecryptionAuthFailed of the spec), and no plaintext — altered or partial —
is ever returned: the single atomic tag comparison fails before the
plaintext is reconstructed. -/
theorem c2_tamper_detection (key nonce p d : List Nat) (k j : Nat)
    (hklen : key.length = ENCRYPTION_KEY_LENGTH) (hk : ∀ b ∈ key, b < 256)
    (hnlen : nonce.length = GCM_NONCE_LENGTH) (hn : ∀ b ∈ nonce, b < 256)
    (hp : ∀ b ∈ p, b < 256) (hj : j < 8) :
    (k < p.length →
      decrypt_data (b64encode (nonce ++
          ((ctOf key nonce p).set k ((ctOf key nonce p).getD k 0 ^^^ 2 ^ j) ++
            tagOf key nonce p))) (some key) d =
        .error (.validation ⟨"Authentication failed - data may be corrupted", "crypto_005"⟩)) ∧
    (k < GCM_TAG_LENGTH →
      decrypt_data (b64encode (nonce ++
          (ctOf key nonce p ++
            (tagOf key nonce p).set k ((tagOf key nonce p).getD k 0 ^^^ 2 ^ j)))) (some key) d =
        .error (.validation ⟨"Authentication failed - data may be corrupted", "crypto_005"⟩)) := by
  have hct := ctOf_lt_256 key nonce p hk hn hp
  have htag := gcmTag_lt_256 key nonce _ hk hn hct
  have h2j : (2 : Nat) ^ j < 256 := by
    have : (2 : Nat) ^ j ≤ 2 ^ 7 := Nat.pow_le_pow_right (by omega) (by omega)
    omega
  have h2jne : (2 : Nat) ^ j ≠ 0 := Nat.pos_iff_ne_zero.1 (Nat.pos_pow_of_pos j (by omega))
  constructor
  · intro hkp
    have hkct : k < (ctOf key nonce p).length := by rw [length_ctOf]; exact hkp
    have hrw := decrypt_sealed key nonce
      ((ctOf key nonce p).set k ((ctOf key nonce p).getD k 0 ^^^ 2 ^ j))
      (tagOf key nonce p) d hklen hnlen hn
      (mem_set_bound _ k _ hct (xor_lt_256 (getD_lt_256 _ hct k) h2j))
      (length_gcmTag key nonce _) htag
    rw [hrw]
    simp only [tagOf]
    rw [if_neg (gcmTag_ne_of_ct_flip key nonce (ctOf key nonce p) k _ hkct h2jne)]
  · intro hkt
    have hktag : k < (tagOf key nonce p).length := by
      rw [tagOf, length_gcmTag]; exact hkt
    have hrw := decrypt_sealed key nonce (ctOf key nonce p)
      ((tagOf key nonce p).set k ((tagOf key nonce p).getD k 0 ^^^ 2 ^ j)) d hklen hnlen hn hct
      (by rw [List.length_set, tagOf, length_gcmTag])
      (by
        simp only [tagOf]
        exact mem_set_bound _ k _ htag (xor_lt_256 (getD_lt_256 _ htag k) h2j))
    rw [hrw]
    simp only [tagOf]
    rw [if_neg (Ne.symm (set_flip_ne (gcmTag key nonce (ctOf key nonce p)) k _
      (by rw [length_gcmTag]; exact hkt) h2jne))]

/-- Witness for C2: concrete key, nonce and plaintext "h"; flipping bit 0
of ciphertext byte 0 and flipping bit 0 of tag byte 0 both make
`decrypt_data` fail with crypto_005. -/
theorem c2_tamper_detection_witness :
    decrypt_data (b64encode ((List.replicate 12 3) ++
        ((ctOf (List.replicate 32 7) (List.replicate 12 3) [104]).set 0
          ((ctOf (List.replicate 32 7) (List.replicate 12 3) [104]).getD 0 0 ^^^ 2 ^ 0) ++
          tagOf (List.replicate 32 7) (List.replicate 12 3) [104])))
      (some (List.replicate 32 7)) [] =
      .error (.validation ⟨"Authentication failed - data may be corrupted", "crypto_005"⟩) ∧
    decrypt_data (b64encode ((List.replicate 12 3) ++
        (ctOf (List.replicate 32 7) (List.replicate 12 3) [104] ++
          (tagOf (List.replicate 32 7) (List.replicate 12 3) [104]).set 0
            ((tagOf (List.replicate 32 7) (List.replicate 12 3) [104]).getD 0 0 ^^^ 2 ^ 0))))
      (some (List.replicate 32 7)) [] =
      .error (.validation ⟨"Authentication failed - data may be corrupted", "crypto_005"⟩) := by
  have h := c2_tamper_detection (List.replicate 32 7) (List.replicate 12 3) [104] [] 0 0
    (by decide) (by decide) (by decide) (by decide) (by decide) (by decide)
  exact ⟨h.1 (by decide), h.2 (by decide)⟩

/-! ## `security/jwt.py` — token issuance, verification, revocation

Tokens are modelled symbolically: `jwt.encode(payload, secret, HS256)`
produces a compact string determined by the payload and the signing
secret, and `jwt.decode(token, secret)` succeeds exactly when the
signature was made with the same secret (ideal MAC) and the `exp` claim
has not passed (python-jose raises ExpiredSignatureError, a subclass of
JWTError, when `exp < now`).  Timestamps are epoch seconds. -/

/-- Values stored in the Python claim dictionaries that the security
modules actually put there: strings, booleans and lists of strings. -/
inductive PyVal where
  | vStr (s : String)
  | vBool (b : Bool)
  | vStrList (l : List String)
deriving DecidableEq, Repr

/-- Association-list lookup, the model of Python `dict[key]` /
`dict.get(key)`. -/
def alookup {α β : Type} [DecidableEq α] : List (α × β) → α → Option β
  | [], _ => none
  | (k, v) :: t, a => if k = a then some v else alookup t a

/-- The claim set of a token minted by `JWTHandler.create_token`: the
caller's base claims (`data.copy()`) plus the security claims added by
`token_data.update({...})`.  The update keys (exp, iat, jti, roles,
permissions, token_version) are kept as fields; `data` holds the
remaining caller claims — `create_token` never sets a singular "role"
key. -/
structure Payload where
  data : List (String × PyVal)
  exp : Nat
  iat : Nat
  /-- `str(uuid.uuid4())`, modelled as a draw from an injective supply. -/
  jti : Nat
  roles : List String
  permissions : List (String × PyVal)
  token_version : String
deriving DecidableEq, Repr

/-- A Python token string: either a well-formed compact JWT (payload plus
the secret its signature was made with) or a malformed string on which
`jwt.decode` / `jwt.get_unverified_claims` raise JWTError. -/
inductive TokenStr where
  | signed (payload : Payload) (sigKey : String)
  | malformed (s : String)
deriving DecidableEq, Repr

def TokenStr.jtiOf : TokenStr → Option Nat
  | .signed p _ => some p.jti
  | .malformed _ => none

def TokenStr.versionOf : TokenStr → Option String
  | .signed p _ => some p.token_version
  | .malformed _ => none

/-- Argument tuple of `create_token`, the memoization key of its
`@cached(cache=TTLCache(maxsize=1000, ttl=300))` decorator. -/
structure CreateArgs where
  data : List (String × PyVal)
  roles : List String
  permissions : List (String × PyVal)
  /-- `expires_delta` in seconds (`None` selects the 30-minute default). -/
  expires_delta : Option Nat
deriving DecidableEq, Repr

def ACCESS_TOKEN_EXPIRE_MINUTES : Nat := 30

/-- Mutable state of a `JWTHandler` instance.  The TTLs of the two caches
(7 days for the blacklist, 300 s for the create_token memo cache) are far
longer than any window a claim exercises and are not modelled. -/
structure JWTHandler where
  secret_key : String
  /-- `_token_blacklist`: TTLCache keyed by the full token string. -/
  token_blacklist : List TokenStr
  /-- `_token_cache`: created in `__init__` and cleared by `rotate_key`,
  but no code path ever reads or writes an entry. -/
  token_cache : List (String × TokenStr)
  /-- The anonymous `TTLCache(maxsize=1000, ttl=300)` of the `@cached`
  decorator on `create_token`, keyed by the full argument tuple.  (In
  CPython it is keyed per bound call including `self`; for a single
  handler instance, as exercised by the claims, this is the same.) -/
  createCache : List (CreateArgs × TokenStr)
  /-- Supply for fresh `uuid.uuid4()` values. -/
  uuidSupply : Nat
deriving DecidableEq, Repr

def JWTHandler.init (secret : String) : JWTHandler :=
  { secret_key := secret, token_blacklist := [], token_cache := [], createCache := [],
    uuidSupply := 0 }

/-- The claim set `create_token` assembles when its body runs: base
claims plus `exp = now + delta` (30-minute default), `iat = now`, a fresh
jti, the caller roles and permissions, and the constant token_version
"1.0". -/
def mintedPayload (now : Nat) (a : CreateArgs) (jti : Nat) : Payload :=
  { data := a.data, exp := now + a.expires_delta.getD (ACCESS_TOKEN_EXPIRE_MINUTES * 60),
    iat := now, jti := jti, roles := a.roles, permissions := a.permissions,
    token_version := "1.0" }

/-- `create_token(data, roles, permissions, expires_delta)` including its
`@cached` memoization: a repeated call with the same argument tuple
returns the cached token without running the body. -/
def JWTHandler.create_token (h : JWTHandler) (now : Nat) (a : CreateArgs) :
    TokenStr × JWTHandler :=
  match alookup h.createCache a with
  | some t => (t, h)
  | none =>
    let t := TokenStr.signed (mintedPayload now a h.uuidSupply) h.secret_key
    (t, { h with createCache := (a, t) :: h.createCache, uuidSupply := h.uuidSupply + 1 })

/-- `verify_token(token)`: blacklist check first, then `jwt.decode`
(signature and expiry), then the token_version check.  Every failure is
an AuthenticationException carrying error code auth_002
(`ErrorCodes.INVALID_TOKEN`); `utils/constants.py` defines no separate
expired or revoked code. -/
def JWTHandler.verify_token (h : JWTHandler) (now : Nat) (t : TokenStr) :
    Except PyException Payload :=
  if t ∈ h.token_blacklist then
    .error (.auth ⟨"Token has been revoked", "auth_002"⟩)
  else
    match t with
    | .malformed _ => .error (.auth ⟨"Invalid authentication token", "auth_002"⟩)
    | .signed p sigKey =>
      if sigKey ≠ h.secret_key then
        .error (.auth ⟨"Invalid authentication token", "auth_002"⟩)
      else if p.exp < now then
        .error (.auth ⟨"Invalid authentication token", "auth_002"⟩)
      else if p.token_version ≠ "1.0" then
        .error (.auth ⟨"Invalid token version", "auth_002"⟩)
      else .ok p

/-- `blacklist_token(token)`: `jwt.get_unverified_claims` needs no valid
signature, so any well-formed token is added (keyed by the token string);
on a malformed token it raises, the blanket `except` logs, and nothing is
added. -/
def JWTHandler.blacklist_token (h : JWTHandler) (t : TokenStr) : JWTHandler :=
  match t with
  | .malformed _ => h
  | .signed _ _ => { h with token_blacklist := t :: h.token_blacklist }

/-- `rotate_key()`: swaps `_secret_key` for fresh key material (the
random bytes are the `newKey` parameter) and clears the unused
`_token_cache`; it does NOT touch `token_version` (hard-coded "1.0" in
both `create_token` and `verify_token`) and does NOT clear the
`create_token` memo cache. -/
def JWTHandler.rotate_key (h : JWTHandler) (newKey : String) : Bool × JWTHandler :=
  (true, { h with secret_key := newKey, token_cache := [] })

/-- `has_role(token, required_role)`: degrades to `False` when
`verify_token` raises AuthenticationException. -/
def JWTHandler.has_role (h : JWTHandler) (now : Nat) (t : TokenStr) (requiredRole : String) :
    Bool :=
  match h.verify_token now t with
  | .ok p => decide (requiredRole ∈ p.roles)
  | .error _ => false

/-- `has_permission(token, required_permission)`: Python
`required_permission in payload.get("permissions", {})` is key
membership in the permissions dict; degrades to `False` on verification
failure. -/
def JWTHandler.has_permission (h : JWTHandler) (now : Nat) (t : TokenStr)
    (requiredPermission : String) : Bool :=
  match h.verify_token now t with
  | .ok p => (alookup p.permissions requiredPermission).isSome
  | .error _ => false

/-! ## `security/authorization.py` — RBAC -/

/-- `[p.value for p in Permission]` in declaration order. -/
def permissionValues : List String :=
  ["read_data", "write_data", "manage_templates", "configure_integrations", "manage_users"]

/-- `[r.value for r in UserRole]` in declaration order. -/
def roleValues : List String :=
  ["super_admin", "org_admin", "standard_user", "integration_user"]

/-- `RBACHandler._role_permissions`. -/
def role_permissions : List (String × List String) :=
  [("super_admin", permissionValues),
   ("org_admin", ["read_data", "write_data", "manage_templates", "configure_integrations",
                  "manage_users"]),
   ("standard_user", ["read_data", "write_data", "manage_templates"]),
   ("integration_user", ["read_data"])]

/-- `RBACHandler._role_hierarchy`. -/
def role_hierarchy : List (String × List String) :=
  [("super_admin", roleValues),
   ("org_admin", ["org_admin", "standard_user", "integration_user"]),
   ("standard_user", ["standard_user", "integration_user"]),
   ("integration_user", ["integration_user"])]

/-- Keys of the shared `_permission_cache` TTLCache (maxsize 1000,
ttl 300): `get_user_permissions` stores under the bare role string,
`verify_permission` under `f"{token}:{required_permission}"`.  The two
families are modelled as distinct constructors; the four genuine role
names contain no colon, so they can never equal a token-permission
key. -/
inductive RBACCacheKey where
  | roleKey (r : String)
  | tokenPermKey (t : TokenStr) (perm : String)
deriving DecidableEq, Repr

/-- Values in the shared cache: booleans from `verify_permission`,
permission lists from `get_user_permissions`. -/
inductive RBACCacheVal where
  | bVal (b : Bool)
  | listVal (l : List String)
deriving DecidableEq, Repr

/-- Mutable state of an `RBACHandler` (which owns its own `JWTHandler()`
instance). -/
structure RBACHandler where
  jwt : JWTHandler
  permission_cache : List (RBACCacheKey × RBACCacheVal)
deriving DecidableEq, Repr

def RBACHandler.init (secret : String) : RBACHandler :=
  { jwt := JWTHandler.init secret, permission_cache := [] }

/-- Truthiness of a cached value, for the (reachable only under key
collisions) case where Python returns a cached permission list where its
annotated return type promises a bool. -/
def RBACCacheVal.asBool : RBACCacheVal → Bool
  | .bVal b => b
  | .listVal l => !l.isEmpty

/-- `verify_permission(token, required_permission)`: cached decision
first; otherwise verify the token, read the singular `role` claim
(`payload.get("role")` — NOT the plural `roles` list that `create_token`
writes), resolve inherited roles, check the permission, cache and return
the boolean.  Any exception inside the `try` — verification failure, a
falsy/missing role claim (raised as auth_002), an unhashable role value —
returns `False` without caching. -/
def RBACHandler.verify_permission (rb : RBACHandler) (now : Nat) (t : TokenStr)
    (perm : String) : Bool × RBACHandler :=
  match alookup rb.permission_cache (.tokenPermKey t perm) with
  | some v => (v.asBool, rb)
  | none =>
    match rb.jwt.verify_token now t with
    | .error _ => (false, rb)
    | .ok p =>
      match alookup p.data "role" with
      | none => (false, rb)
      | some (.vBool false) => (false, rb)
      | some (.vBool true) =>
        -- a boolean role is truthy but hashes to no hierarchy key:
        -- `.get(user_role, [])` yields [], the loop grants nothing
        (false, { rb with permission_cache :=
          (.tokenPermKey t perm, .bVal false) :: rb.permission_cache })
      | some (.vStrList _) => (false, rb)
      | some (.vStr r) =>
        if r = "" then (false, rb)
        else
          let inherited := (alookup role_hierarchy r).getD []
          let hasPerm := inherited.any fun role =>
            ((alookup role_permissions role).getD []).contains perm
          (hasPerm, { rb with permission_cache :=
            (.tokenPermKey t perm, .bVal hasPerm) :: rb.permission_cache })

/-- Python string comparison `a <= b`: lexicographic on Unicode code
points.  (The builtin Lean order on `String` goes through `String.ltb`,
which does not reduce in the kernel, so the comparison is spelled out on
the character lists.) -/
def charListLe : List Char → List Char → Bool
  | [], _ => true
  | _ :: _, [] => false
  | x :: xs, y :: ys =>
    if x.toNat < y.toNat then true
    else if y.toNat < x.toNat then false
    else charListLe xs ys

def pyStrLe (a b : String) : Bool := charListLe a.toList b.toList

def pyStrLeRel (a b : String) : Prop := pyStrLe a b = true

instance : DecidableRel pyStrLeRel :=
  fun a b => inferInstanceAs (Decidable (pyStrLe a b = true))

theorem charListLe_total : ∀ a b, charListLe a b = true ∨ charListLe b a = true
  | [], _ => .inl rfl
  | _ :: _, [] => .inr rfl
  | x :: xs, y :: ys => by
    rcases Nat.lt_trichotomy x.toNat y.toNat with h | h | h
    · left; simp [charListLe, h]
    · have hx : ¬ x.toNat < y.toNat := by omega
      have hy : ¬ y.toNat < x.toNat := by omega
      rcases charListLe_total xs ys with ih | ih
      · left; simp [charListLe, hx, hy, ih]
      · right; simp [charListLe, hx, hy, ih]
    · right; simp [charListLe, h]

theorem charListLe_trans : ∀ a b c, charListLe a b = true → charListLe b c = true →
    charListLe a c = true
  | [], _, _, _, _ => rfl
  | _ :: _, [], _, h, _ => by simp [charListLe] at h
  | _ :: _, _ :: _, [], _, h => by simp [charListLe] at h
  | x :: xs, y :: ys, z :: zs, h1, h2 => by
    simp only [charListLe] at h1 h2 ⊢
    by_cases hxy : x.toNat < y.toNat
    · by_cases hyz : y.toNat < z.toNat
      · simp [show x.toNat < z.toNat by omega]
      · by_cases hzy : z.toNat < y.toNat
        · simp [hyz, hzy] at h2
        · simp [show x.toNat < z.toNat by omega]
    · by_cases hyx : y.toNat < x.toNat
      · simp [hxy, hyx] at h1
      · by_cases hyz : y.toNat < z.toNat
        · simp [show x.toNat < z.toNat by omega]
        · by_cases hzy : z.toNat < y.toNat
          · simp [hyz, hzy] at h2
          · simp only [hxy, hyx, if_neg, ite_false] at h1
            simp only [hyz, hzy, if_neg, ite_false] at h2
            simp only [show ¬ x.toNat < z.toNat by omega, show ¬ z.toNat < x.toNat by omega,
              if_neg, ite_false]
            exact charListLe_trans xs ys zs h1 h2

instance : IsTotal String pyStrLeRel := ⟨fun a b => charListLe_total a.toList b.toList⟩

instance : IsTrans String pyStrLeRel :=
  ⟨fun a b c => charListLe_trans a.toList b.toList c.toList⟩

/-- `sorted(list(set(...)))` over the permission union: the distinct
permissions of all inherited roles in ascending code-point order (every
comparison sort agrees on a duplicate-free list, so insertion sort models
Python `sorted`). -/
def sortedPermissionUnion (inherited : List String) : List String :=
  List.insertionSort pyStrLeRel
    ((inherited.flatMap fun r => (alookup role_permissions r).getD []).dedup)

/-- `get_user_permissions(role)`: cached value first (returned as-is from
the shared cache); otherwise union the permissions of all inherited
roles, sort for determinism, cache and return; an unknown role raises
ValueError, caught by the blanket `except`, which returns `[]` without
caching. -/
def RBACHandler.get_user_permissions (rb : RBACHandler) (role : String) :
    RBACCacheVal × RBACHandler :=
  match alookup rb.permission_cache (.roleKey role) with
  | some v => (v, rb)
  | none =>
    match alookup role_hierarchy role with
    | none => (.listVal [], rb)
    | some inherited =>
      let permissionList := sortedPermissionUnion inherited
      (.listVal permissionList, { rb with permission_cache :=
        (.roleKey role, .listVal permissionList) :: rb.permission_cache })

/-! ## `security/encryption.py` `DataEncryption` and
`config/security.py` `SecurityConfig` key rotation -/

/-- The `DataEncryption` class: a single `_encryption_key`. -/
structure DataEncryption where
  encryption_key : List Nat
deriving DecidableEq, Repr

def DataEncryption.encrypt (e : DataEncryption) (data : PyData) (nonce : List Nat) :
    Except PyException (List Nat) :=
  encrypt_data data (some e.encryption_key) [] nonce

def DataEncryption.decrypt (e : DataEncryption) (encrypted : List Nat) :
    Except PyException (List Nat) :=
  decrypt_data encrypted (some e.encryption_key) []

/-- `DataEncryption.rotate_key()`: zeroes the old key variable, installs a
freshly generated key (the `newKey` parameter stands for
`generate_encryption_key()`), returns it.  No previous key is retained
anywhere. -/
def DataEncryption.rotate_key (e : DataEncryption) (newKey : List Nat) :
    List Nat × DataEncryption :=
  (newKey, { encryption_key := newKey })

def KEY_ROTATION_DAYS : Nat := 30

/-- `SecurityConfig` key-store state.  `_previous_key_id` is read by
`rotate_encryption_keys` but never assigned anywhere in the class, so in
every reachable state the attribute is missing (`none`) and reading it
raises AttributeError. -/
structure SecurityConfig where
  encryption_keys : List (String × List Nat)
  active_key_id : String
  previous_key_id : Option String
  /-- `_last_rotation`, in whole days (the `periodic_task` guard compares
  `(utcnow() - last_rotation).days`). -/
  last_rotation : Nat
deriving DecidableEq, Repr

def SecurityConfig.init (keyId : String) (key : List Nat) (nowDays : Nat) : SecurityConfig :=
  { encryption_keys := [(keyId, key)], active_key_id := keyId, previous_key_id := none,
    last_rotation := nowDays }

/-- `@periodic_task(days=30) rotate_encryption_keys()`: the decorator
silently returns `None` (here `.ok none`) unless 30 days have passed
since `_last_rotation`.  When the body runs it installs the new key,
swaps the active id and stamps the rotation time, and only then evaluates
the retention dict comprehension, whose filter reads
`self._previous_key_id`: the boolean `or` short-circuits for the active
key itself, but the first retained key with a different id triggers the
AttributeError — after the state was already mutated, so the key dict is
never pruned. -/
def SecurityConfig.rotate_encryption_keys (c : SecurityConfig) (nowDays : Nat)
    (newKeyId : String) (newKey : List Nat) :
    Except PyException (Option (String × Nat)) × SecurityConfig :=
  if nowDays - c.last_rotation < KEY_ROTATION_DAYS then
    (.ok none, c)
  else
    let c1 : SecurityConfig :=
      { c with encryption_keys := c.encryption_keys ++ [(newKeyId, newKey)],
               active_key_id := newKeyId, last_rotation := nowDays }
    match c1.previous_key_id with
    | some prev =>
      (.ok (some (newKeyId, nowDays)),
       { c1 with encryption_keys := c1.encryption_keys.filter fun p =>
           p.1 = c1.active_key_id ∨ p.1 = prev })
    | none =>
      if c1.encryption_keys.all fun p => p.1 = c1.active_key_id then
        (.ok (some (newKeyId, nowDays)), c1)
      else
        (.error (.attributeError "_previous_key_id"), c1)

/-! ## `security/authentication.py` — `AuthenticationManager` -/

/-- A record of the external credential store
(`get_by_email(email) -> {id, email, password_hash, roles, permissions} |
None`, spec §6). -/
structure UserRec where
  id : String
  password_hash : String
  roles : List String
  permissions : List (String × PyVal)
deriving DecidableEq, Repr

/-- Modelled from the spec: the password hash of the external
passlib/bcrypt collaborator, idealized as an injective tagging so that
verification succeeds exactly for the original password. -/
def bcryptHash (password : String) : String := "bcrypt$" ++ password

/-- `verify_password(plain, hashed)` — constant-time comparison against
the stored hash, true exactly on a match. -/
def verify_password (plain hashed : String) : Bool := hashed = bcryptHash plain

/-- Modelled from the spec: `_verify_credentials` is an empty stub
(`pass`, returning None) in `authentication.py`; per spec §4.3 step 3 and
the §6 credential-store interface it looks the user up by email and
verifies the password against the stored hash, returning None on unknown
user or mismatch. -/
def verifyCredentials (store : List (String × UserRec)) (email password : String) :
    Option UserRec :=
  match alookup store email with
  | none => none
  | some u => if verify_password password u.password_hash then some u else none

/-- Python `dict[k] = v`. -/
def aset {α β : Type} [DecidableEq α] (l : List (α × β)) (k : α) (v : β) : List (α × β) :=
  (k, v) :: l.filter fun p => decide (p.1 ≠ k)

/-- Python `del dict[k]` / cache delete. -/
def aerase {α β : Type} [DecidableEq α] (l : List (α × β)) (k : α) : List (α × β) :=
  l.filter fun p => decide (p.1 ≠ k)

def MAX_AUTH_ATTEMPTS : Nat := 5

/-- The token dictionary returned by `authenticate_user`. -/
structure TokenPair where
  access_token : TokenStr
  refresh_token : TokenStr
  token_type : String
  expires_in : Nat
deriving DecidableEq, Repr

/-- Mutable state of an `AuthenticationManager`: its own `JWTHandler()`,
the external cache (failed-attempt counters with 1-hour TTL, cached token
pairs with 300 s TTL; the TTLs are beyond every window a claim
exercises), and the non-blocking rate limiter, modelled by the number of
acquisitions remaining in the current window. -/
structure AuthManager where
  jwt : JWTHandler
  failed_attempts : List (String × Nat)
  tokens_cache : List (String × (TokenStr × TokenStr))
  rate_tokens : Nat
deriving DecidableEq, Repr

def AuthManager.init (secret : String) (rate : Nat) : AuthManager :=
  { jwt := JWTHandler.init secret, failed_attempts := [], tokens_cache := [],
    rate_tokens := rate }

/-- The argument tuple `authenticate_user` passes for the access token
(`create_access_token` is not defined in the JWT module; per spec §9 it
is modelled as `create_token` with the default 30-minute TTL). -/
def accessArgsOf (u : UserRec) (email : String) : CreateArgs :=
  { data := [("sub", .vStr u.id), ("email", .vStr email), ("roles", .vStrList u.roles)],
    roles := u.roles, permissions := u.permissions, expires_delta := none }

/-- The argument tuple `authenticate_user` passes for the refresh token
(7-day TTL, empty permissions). -/
def refreshArgsOf (u : UserRec) : CreateArgs :=
  { data := [("sub", .vStr u.id)], roles := u.roles, permissions := [],
    expires_delta := some (7 * 24 * 3600) }

/-- `authenticate_user(email, password)`: rate limit, lockout check
(before any credential-store access), credential verification with
failed-attempt increment, then token minting (`create_access_token` is
not defined in the JWT module; per spec §9 it is modelled as
`create_token` with the default 30-minute TTL), token caching, counter
clear, and the token dictionary. -/
def AuthManager.authenticate_user (m : AuthManager) (store : List (String × UserRec))
    (now : Nat) (email password : String) : Except PyException TokenPair × AuthManager :=
  if m.rate_tokens = 0 then
    (.error (.auth ⟨"Authentication rate limit exceeded", "api_001"⟩), m)
  else
    let m1 : AuthManager := { m with rate_tokens := m.rate_tokens - 1 }
    let failedAttempts := (alookup m1.failed_attempts email).getD 0
    if failedAttempts ≥ MAX_AUTH_ATTEMPTS then
      (.error (.auth ⟨"Account temporarily locked due to multiple failed attempts", "auth_001"⟩),
       m1)
    else
      match verifyCredentials store email password with
      | none =>
        (.error (.auth ⟨"Invalid credentials", "auth_001"⟩),
         { m1 with failed_attempts := aset m1.failed_attempts email (failedAttempts + 1) })
      | some user =>
        let (accessToken, jwt1) := m1.jwt.create_token now (accessArgsOf user email)
        let (refreshToken, jwt2) := jwt1.create_token now (refreshArgsOf user)
        let m2 : AuthManager :=
          { m1 with
            jwt := jwt2,
            tokens_cache := aset m1.tokens_cache user.id (accessToken, refreshToken),
            failed_attempts := aerase m1.failed_attempts email }
        (.ok { access_token := accessToken, refresh_token := refreshToken,
               token_type := "bearer", expires_in := 1800 }, m2)

/-- `n` consecutive `authenticate_user` calls with the same arguments,
returning the final manager state. -/
def authIter (store : List (String × UserRec)) (now : Nat) (email password : String) :
    Nat → AuthManager → AuthManager
  | 0, m => m
  | n + 1, m => (AuthManager.authenticate_user (authIter store now email password n m)
      store now email password).2

/-! ## Claim theorems for the token service -/

/-- C3: the claim assigns distinct failure kinds (`TokenExpired`,
`TokenRevoked`) to expiry and revocation, but `verify_token` raises
AuthenticationException with the same error code auth_002
(`ErrorCodes.INVALID_TOKEN`) in every case — the expired-token error is
even byte-for-byte identical to the malformed-token error, and
`utils/constants.py` defines no expired or revoked code.  Concretely: a
token with `exp = 1800` verified at time 2000 produces exactly the
malformed-token error, and after `blacklist_token` the error still
carries code auth_002. -/
theorem c3_no_distinct_error_kinds_counterexample :
    (JWTHandler.init "s0").verify_token 2000
        (.signed ⟨[("sub", .vStr "u1")], 1800, 0, 0, ["standard_user"], [], "1.0"⟩ "s0") =
      (JWTHandler.init "s0").verify_token 2000 (.malformed "x") ∧
    (JWTHandler.init "s0").verify_token 2000 (.malformed "x") =
      .error (.auth ⟨"Invalid authentication token", "auth_002"⟩) ∧
    ((JWTHandler.init "s0").blacklist_token
          (.signed ⟨[("sub", .vStr "u1")], 1800, 0, 0, ["standard_user"], [], "1.0"⟩ "s0")).verify_token 10
        (.signed ⟨[("sub", .vStr "u1")], 1800, 0, 0, ["standard_user"], [], "1.0"⟩ "s0") =
      .error (.auth ⟨"Token has been revoked", "auth_002"⟩) := by
  refine ⟨by decide, by decide, by decide⟩

/-- C3 (amended): `verify_token` fails with AuthenticationException
code auth_002 in all four situations — message "Invalid authentication
token" on malformed structure, bad signature or passed `exp`; message
"Token has been revoked" immediately after `blacklist_token` regardless
of remaining lifetime; message "Invalid token version" on a
token_version mismatch — and a token verified successfully at one time
fails verification at any time after its `exp`. -/
theorem c3_verify_token_lifecycle (h : JWTHandler) (now : Nat) :
    (∀ s, TokenStr.malformed s ∉ h.token_blacklist →
      h.verify_token now (.malformed s) =
        .error (.auth ⟨"Invalid authentication token", "auth_002"⟩)) ∧
    (∀ p k, TokenStr.signed p k ∉ h.token_blacklist → k ≠ h.secret_key →
      h.verify_token now (.signed p k) =
        .error (.auth ⟨"Invalid authentication token", "auth_002"⟩)) ∧
    (∀ p k, (h.blacklist_token (.signed p k)).verify_token now (.signed p k) =
        .error (.auth ⟨"Token has been revoked", "auth_002"⟩)) ∧
    (∀ p k, TokenStr.signed p k ∉ h.token_blacklist → k = h.secret_key → p.exp < now →
      h.verify_token now (.signed p k) =
        .error (.auth ⟨"Invalid authentication token", "auth_002"⟩)) ∧
    (∀ p k, TokenStr.signed p k ∉ h.token_blacklist → k = h.secret_key → ¬ p.exp < now →
      p.token_version ≠ "1.0" →
      h.verify_token now (.signed p k) =
        .error (.auth ⟨"Invalid token version", "auth_002"⟩)) ∧
    (∀ t p later, h.verify_token now t = .ok p → p.exp < later →
      h.verify_token later t =
        .error (.auth ⟨"Invalid authentication token", "auth_002"⟩)) := by
  refine ⟨?_, ?_, ?_, ?_, ?_, ?_⟩
  · intro s hbl
    simp [JWTHandler.verify_token, hbl]
  · intro p k hbl hk
    simp [JWTHandler.verify_token, hbl, hk]
  · intro p k
    simp [JWTHandler.verify_token, JWTHandler.blacklist_token]
  · intro p k hbl hk hexp
    subst hk
    simp [JWTHandler.verify_token, hbl, hexp]
  · intro p k hbl hk hexp hv
    subst hk
    simp [JWTHandler.verify_token, hbl, hexp, hv]
  · intro t p later hok hexp
    cases t with
    | malformed s =>
      simp only [JWTHandler.verify_token] at hok
      split at hok <;> simp_all
    | signed q k =>
      simp only [JWTHandler.verify_token] at hok
      by_cases hbl : TokenStr.signed q k ∈ h.token_blacklist
      · simp [hbl] at hok
      · rw [if_neg hbl] at hok
        by_cases hk : k = h.secret_key
        · subst hk
          rw [if_neg (by simp)] at hok
          by_cases hexp2 : q.exp < now
          · simp [hexp2] at hok
          · rw [if_neg hexp2] at hok
            by_cases hv : q.token_version ≠ "1.0"
            · simp [hv] at hok
            · rw [if_neg hv] at hok
              injection hok with hqp
              subst hqp
              simp [JWTHandler.verify_token, hbl, hexp]
        · simp [hk] at hok

/-- Witness for C3 (amended): a concrete handler; a freshly blacklisted
token fails immediately with the revocation message, and a malformed
token fails with the invalid-token message. -/
theorem c3_verify_token_lifecycle_witness :
    ((JWTHandler.init "s0").blacklist_token
          (.signed ⟨[("sub", .vStr "u1")], 1800, 0, 0, ["standard_user"], [], "1.0"⟩ "s0")).verify_token 10
        (.signed ⟨[("sub", .vStr "u1")], 1800, 0, 0, ["standard_user"], [], "1.0"⟩ "s0") =
      .error (.auth ⟨"Token has been revoked", "auth_002"⟩) ∧
    (JWTHandler.init "s0").verify_token 10 (.malformed "x") =
      .error (.auth ⟨"Invalid authentication token", "auth_002"⟩) := by
  have h := c3_verify_token_lifecycle (JWTHandler.init "s0") 10
  exact ⟨h.2.2.1 ⟨[("sub", .vStr "u1")], 1800, 0, 0, ["standard_user"], [], "1.0"⟩ "s0",
    h.1 "x" (by decide)⟩

/-- C6: the claim says `rotate_key` bumps `token_version`; it does not —
`token_version` is the constant "1.0" in both `create_token` and
`verify_token`, and `rotate_key` only swaps the secret and clears the
unused `_token_cache`.  A token minted after rotation carries exactly the
token_version of one minted before. -/
theorem c6_no_version_bump_counterexample :
    (((((JWTHandler.init "k0").create_token 0
          ⟨[("sub", .vStr "a")], ["user"], [], none⟩).2.rotate_key "k1").2.create_token 0
          ⟨[("sub", .vStr "b")], ["user"], [], none⟩).1).versionOf =
      ((((JWTHandler.init "k0").create_token 0
          ⟨[("sub", .vStr "a")], ["user"], [], none⟩).1)).versionOf ∧
    (((JWTHandler.init "k0").create_token 0
          ⟨[("sub", .vStr "a")], ["user"], [], none⟩).1).versionOf = some "1.0" := by
  refine ⟨by decide, by decide⟩

/-- C6 (amended): `rotate_key` swaps the signing secret (leaving the
blacklist untouched — no old token is enumerated), so every token signed
with any other key, in particular every token issued before the rotation,
fails verification afterwards with the auth_002 invalid-token error; the
invalidation comes from the signature check alone, because
`token_version` stays "1.0" on tokens minted after rotation as well. -/
theorem c6_rotate_key_invalidates (h : JWTHandler) (newKey : String) (now : Nat) :
    ((h.rotate_key newKey).2.secret_key = newKey) ∧
    ((h.rotate_key newKey).2.token_blacklist = h.token_blacklist) ∧
    (∀ p k, TokenStr.signed p k ∉ h.token_blacklist → k ≠ newKey →
      (h.rotate_key newKey).2.verify_token now (.signed p k) =
        .error (.auth ⟨"Invalid authentication token", "auth_002"⟩)) ∧
    (∀ a, alookup h.createCache a = none →
      (((h.rotate_key newKey).2.create_token now a).1).versionOf = some "1.0") := by
  refine ⟨rfl, rfl, ?_, ?_⟩
  · intro p k hbl hk
    simp [JWTHandler.verify_token, JWTHandler.rotate_key, hbl, hk]
  · intro a ha
    simp [JWTHandler.create_token, JWTHandler.rotate_key, ha, TokenStr.versionOf, mintedPayload]

/-- Witness for C6 (amended): concrete rotation from secret "k0" to
"k1"; a token signed with "k0" fails verification after the rotation. -/
theorem c6_rotate_key_invalidates_witness :
    ((JWTHandler.init "k0").rotate_key "k1").2.verify_token 0
        (.signed ⟨[("sub", .vStr "u1")], 1800, 0, 0, ["user"], [], "1.0"⟩ "k0") =
      .error (.auth ⟨"Invalid authentication token", "auth_002"⟩) := by
  exact (c6_rotate_key_invalidates (JWTHandler.init "k0") "k1" 0).2.2.1
    ⟨[("sub", .vStr "u1")], 1800, 0, 0, ["user"], [], "1.0"⟩ "k0" (by decide) (by decide)

/-- C7: `create_token` is wrapped in
`@cached(cache=TTLCache(maxsize=1000, ttl=300))`, so a second call with
the identical argument tuple returns the memoized first token — same
token, same jti — instead of minting a fresh unique jti (the body's
`"jti": str(uuid.uuid4())` never runs on a cache hit; with CPython's
actual dict/list arguments the cache lookup even raises
`TypeError: unhashable type`).  Evaluated at the failing input: two calls
with identical data/roles/permissions and no expires_delta. -/
theorem c7_create_token_memoized_jti :
    (((JWTHandler.init "k0").create_token 0
          ⟨[("sub", .vStr "test")], ["user"], [("read", .vBool true)], none⟩).2.create_token 100
          ⟨[("sub", .vStr "test")], ["user"], [("read", .vBool true)], none⟩).1 =
      ((JWTHandler.init "k0").create_token 0
          ⟨[("sub", .vStr "test")], ["user"], [("read", .vBool true)], none⟩).1 ∧
    ((((JWTHandler.init "k0").create_token 0
          ⟨[("sub", .vStr "test")], ["user"], [("read", .vBool true)], none⟩).2.create_token 100
          ⟨[("sub", .vStr "test")], ["user"], [("read", .vBool true)], none⟩).1).jtiOf =
      some 0 ∧
    ((((JWTHandler.init "k0").create_token 0
          ⟨[("sub", .vStr "test")], ["user"], [("read", .vBool true)], none⟩).1)).jtiOf =
      some 0 := by
  refine ⟨by decide, by decide, by decide⟩

/-! ## Claim theorems for RBAC and the boolean wrappers -/

theorem verify_token_ok_payload (h : JWTHandler) (now : Nat) (p : Payload) (k : String)
    (q : Payload) (hok : h.verify_token now (.signed p k) = .ok q) : q = p := by
  simp only [JWTHandler.verify_token] at hok
  split at hok
  · simp at hok
  · by_cases hk : k ≠ h.secret_key
    · simp [hk] at hok
    · rw [if_neg hk] at hok
      by_cases hexp : p.exp < now
      · simp [hexp] at hok
      · rw [if_neg hexp] at hok
        by_cases hv : p.token_version ≠ "1.0"
        · simp [hv] at hok
        · rw [if_neg hv] at hok
          injection hok with hq
          exact hq.symm

/-- C8: the claim that `verify_permission` returns false for every
revoked/expired token fails on the decision cache: a token with
`exp = 30` is granted "read_data" at time 10 (cached `True`); at time 100
the token no longer verifies (auth_002), yet `verify_permission` returns
the cached `True` without re-verification. -/
theorem c8_cached_grant_counterexample :
    ((RBACHandler.init "k").verify_permission 10
        (.signed ⟨[("role", .vStr "org_admin")], 30, 0, 0, ["org_admin"], [], "1.0"⟩ "k")
        "read_data").1 = true ∧
    (((RBACHandler.init "k").verify_permission 10
        (.signed ⟨[("role", .vStr "org_admin")], 30, 0, 0, ["org_admin"], [], "1.0"⟩ "k")
        "read_data").2.verify_permission 100
        (.signed ⟨[("role", .vStr "org_admin")], 30, 0, 0, ["org_admin"], [], "1.0"⟩ "k")
        "read_data").1 = true ∧
    ((RBACHandler.init "k").verify_permission 10
        (.signed ⟨[("role", .vStr "org_admin")], 30, 0, 0, ["org_admin"], [], "1.0"⟩ "k")
        "read_data").2.jwt.verify_token 100
        (.signed ⟨[("role", .vStr "org_admin")], 30, 0, 0, ["org_admin"], [], "1.0"⟩ "k") =
      .error (.auth ⟨"Invalid authentication token", "auth_002"⟩) := by
  refine ⟨by decide, by decide, by decide⟩

/-- C8 (amended): `has_role` and `has_permission` return false whenever
`verify_token` fails, and `verify_permission` returns false on every
failure during resolution — verification failure, missing `role` claim,
unknown role — provided it holds no cached decision for the
(token, permission) pair; a cached decision (5-minute TTL) is returned
as-is without re-verification.  None of the three raises: each models
the Python `try: ... except: return False` wrapper as a total boolean
function. -/
theorem c8_boolean_wrappers_fail_closed :
    (∀ (h : JWTHandler) (now : Nat) (t : TokenStr) (role : String) (e : PyException),
      h.verify_token now t = .error e → h.has_role now t role = false) ∧
    (∀ (h : JWTHandler) (now : Nat) (t : TokenStr) (perm : String) (e : PyException),
      h.verify_token now t = .error e → h.has_permission now t perm = false) ∧
    (∀ (rb : RBACHandler) (now : Nat) (t : TokenStr) (perm : String) (e : PyException),
      alookup rb.permission_cache (.tokenPermKey t perm) = none →
      rb.jwt.verify_token now t = .error e →
      (rb.verify_permission now t perm).1 = false) ∧
    (∀ (rb : RBACHandler) (now : Nat) (t : TokenStr) (perm : String) (p : Payload),
      alookup rb.permission_cache (.tokenPermKey t perm) = none →
      rb.jwt.verify_token now t = .ok p →
      alookup p.data "role" = none →
      (rb.verify_permission now t perm).1 = false) ∧
    (∀ (rb : RBACHandler) (now : Nat) (t : TokenStr) (perm : String) (p : Payload) (r : String),
      alookup rb.permission_cache (.tokenPermKey t perm) = none →
      rb.jwt.verify_token now t = .ok p →
      alookup p.data "role" = some (.vStr r) →
      alookup role_hierarchy r = none →
      (rb.verify_permission now t perm).1 = false) := by
  refine ⟨?_, ?_, ?_, ?_, ?_⟩
  · intro h now t role e he
    simp [JWTHandler.has_role, he]
  · intro h now t perm e he
    simp [JWTHandler.has_permission, he]
  · intro rb now t perm e hc he
    simp [RBACHandler.verify_permission, hc, he]
  · intro rb now t perm p hc hp hrole
    simp [RBACHandler.verify_permission, hc, hp, hrole]
  · intro rb now t perm p r hc hp hrole hr
    by_cases hre : r = ""
    · simp [RBACHandler.verify_permission, hc, hp, hrole, hre]
    · simp only [RBACHandler.verify_permission, hc, hp, hrole]
      rw [if_neg hre]
      simp [hr]

/-- Witness for C8 (amended): a malformed token fails verification, and
all three boolean checks return false on a fresh handler. -/
theorem c8_boolean_wrappers_fail_closed_witness :
    (JWTHandler.init "k").has_role 0 (.malformed "x") "org_admin" = false ∧
    (JWTHandler.init "k").has_permission 0 (.malformed "x") "read_data" = false ∧
    ((RBACHandler.init "k").verify_permission 0 (.malformed "x") "read_data").1 = false := by
  refine ⟨c8_boolean_wrappers_fail_closed.1 (JWTHandler.init "k") 0 (.malformed "x") "org_admin"
      (.auth ⟨"Invalid authentication token", "auth_002"⟩) (by decide),
    c8_boolean_wrappers_fail_closed.2.1 (JWTHandler.init "k") 0 (.malformed "x") "read_data"
      (.auth ⟨"Invalid authentication token", "auth_002"⟩) (by decide),
    c8_boolean_wrappers_fail_closed.2.2.1 (RBACHandler.init "k") 0 (.malformed "x") "read_data"
      (.auth ⟨"Invalid authentication token", "auth_002"⟩) (by decide) (by decide)⟩

/-- C9: `get_user_permissions` returns the ascending, duplicate-free
union of the own permissions of every role the given role inherits; on
the concrete tables org_admin strictly contains integration_user and
super_admin yields the full permission set. -/
theorem c9_role_permission_union (secret : String) :
    (∀ role rs, alookup role_hierarchy role = some rs →
      ∃ l, ((RBACHandler.init secret).get_user_permissions role).1 = .listVal l ∧
        l.Sorted pyStrLeRel ∧ l.Nodup ∧
        (∀ perm, perm ∈ l ↔ ∃ r ∈ rs, perm ∈ (alookup role_permissions r).getD [])) ∧
    ((RBACHandler.init secret).get_user_permissions "org_admin").1 =
      .listVal ["configure_integrations", "manage_templates", "manage_users", "read_data",
                "write_data"] ∧
    ((RBACHandler.init secret).get_user_permissions "integration_user").1 =
      .listVal ["read_data"] ∧
    ((RBACHandler.init secret).get_user_permissions "super_admin").1 =
      .listVal ["configure_integrations", "manage_templates", "manage_users", "read_data",
                "write_data"] ∧
    (∀ x, x ∈ (["read_data"] : List String) →
      x ∈ (["configure_integrations", "manage_templates", "manage_users", "read_data",
            "write_data"] : List String)) ∧
    (∀ x, x ∈ (["configure_integrations", "manage_templates", "manage_users", "read_data",
          "write_data"] : List String) ↔ x ∈ permissionValues) := by
  have heval : ∀ role,
      ((RBACHandler.init secret).get_user_permissions role).1 =
        match alookup role_hierarchy role with
        | none => .listVal []
        | some rs => .listVal (sortedPermissionUnion rs) := by
    intro role
    cases h : alookup role_hierarchy role with
    | none =>
      simp only [RBACHandler.get_user_permissions, RBACHandler.init]
      rw [show alookup ([] : List (RBACCacheKey × RBACCacheVal)) (.roleKey role) = none from rfl, h]
    | some rs =>
      simp only [RBACHandler.get_user_permissions, RBACHandler.init]
      rw [show alookup ([] : List (RBACCacheKey × RBACCacheVal)) (.roleKey role) = none from rfl, h]
  refine ⟨?_, by rw [heval]; decide, by rw [heval]; decide, by rw [heval]; decide, ?_, ?_⟩
  · intro role rs h
    refine ⟨sortedPermissionUnion rs, ?_, ?_, ?_, ?_⟩
    · rw [heval, h]
    · exact List.sorted_insertionSort _ _
    · exact (List.perm_insertionSort _ _).nodup_iff.2 (List.nodup_dedup _)
    · intro perm
      rw [sortedPermissionUnion, (List.perm_insertionSort _ _).mem_iff, List.mem_dedup,
        List.mem_flatMap]
  · intro x hx
    simp at hx
    simp [hx]
  · intro x
    simp only [permissionValues, List.mem_cons, List.not_mem_nil, or_false]
    tauto

/-- Witness for C9: the org_admin permission list on a concrete handler,
with the sortedness, duplicate-freeness and union-membership facts. -/
theorem c9_role_permission_union_witness :
    ∃ l, ((RBACHandler.init "s0").get_user_permissions "org_admin").1 =
        RBACCacheVal.listVal l ∧
      l.Sorted pyStrLeRel ∧ l.Nodup ∧
      (∀ perm, perm ∈ l ↔ ∃ r ∈ ["org_admin", "standard_user", "integration_user"],
        perm ∈ (alookup role_permissions r).getD []) :=
  (c9_role_permission_union "s0").1 "org_admin"
    ["org_admin", "standard_user", "integration_user"] (by decide)

/-- C10: `create_token` stores the caller roles under the plural "roles"
claim and adds no singular "role" claim, while `verify_permission` reads
`payload.get("role")`; hence every token minted by `create_token` from
base claims without a "role" key is denied every permission (whether or
not the token verifies). -/
theorem c10_verify_permission_always_denies_minted (s : JWTHandler) (rb : RBACHandler)
    (now nowv : Nat) (a : CreateArgs) (perm : String)
    (hfresh : alookup s.createCache a = none)
    (hnorole : alookup a.data "role" = none)
    (hcache : alookup rb.permission_cache
      (.tokenPermKey ((s.create_token now a).1) perm) = none) :
    (∃ pl k, (s.create_token now a).1 = .signed pl k ∧ alookup pl.data "role" = none) ∧
    (rb.verify_permission nowv ((s.create_token now a).1) perm).1 = false := by
  have htok : (s.create_token now a).1 =
      .signed (mintedPayload now a s.uuidSupply) s.secret_key := by
    simp [JWTHandler.create_token, hfresh]
  refine ⟨⟨_, _, htok, hnorole⟩, ?_⟩
  simp only [RBACHandler.verify_permission, hcache]
  cases hv : rb.jwt.verify_token nowv ((s.create_token now a).1) with
  | error e => rfl
  | ok p =>
    rw [htok] at hv
    have hp := verify_token_ok_payload rb.jwt nowv _ s.secret_key p hv
    subst hp
    simp [hnorole, mintedPayload]

/-- Witness for C10: a concrete mint (sub-only base claims, roles under
"roles") is denied "read_data" by a fresh RBAC handler sharing the same
secret. -/
theorem c10_verify_permission_always_denies_minted_witness :
    ((RBACHandler.init "k").verify_permission 0
      (((JWTHandler.init "k").create_token 0
        ⟨[("sub", .vStr "u1")], ["standard_user"], [], none⟩).1) "read_data").1 = false :=
  (c10_verify_permission_always_denies_minted (JWTHandler.init "k") (RBACHandler.init "k")
    0 0 ⟨[("sub", .vStr "u1")], ["standard_user"], [], none⟩ "read_data"
    (by decide) (by decide) (by decide)).2

/-! ## Claim theorems for key rotation and authentication -/

/-- C5: the two-generation retention the claim (and the spec, and unit
test `test_key_rotation`) requires does not exist in the code.  Evaluated
at the failing input: (1) a `DataEncryption` holding key `7^32` seals the
byte "h" and still decrypts it, but after `rotate_key` to key `9^32` the
same sealed payload fails with crypto_005 — the pre-rotation key is kept
nowhere, contradicting the grace-period claim and the unit test; (2)
`SecurityConfig.rotate_encryption_keys`, 40 days after the last rotation,
mutates the key store (new active key installed) and then raises
AttributeError on the never-assigned `_previous_key_id`, so no key is
ever retired; (3) within 30 days of the last rotation the
`@periodic_task` wrapper silently does nothing. -/
theorem c5_rotation_retention_code_bug :
    (DataEncryption.mk (List.replicate 32 7)).encrypt (.ofBytes [104]) (List.replicate 12 3) =
      .ok (b64encode (sealedRawOf (List.replicate 32 7) (List.replicate 12 3) [104])) ∧
    (DataEncryption.mk (List.replicate 32 7)).decrypt
      (b64encode (sealedRawOf (List.replicate 32 7) (List.replicate 12 3) [104])) =
        .ok [104] ∧
    ((DataEncryption.mk (List.replicate 32 7)).rotate_key (List.replicate 32 9)).2.decrypt
      (b64encode (sealedRawOf (List.replicate 32 7) (List.replicate 12 3) [104])) =
        .error (.validation ⟨"Authentication failed - data may be corrupted", "crypto_005"⟩) ∧
    (SecurityConfig.init "id0" (List.replicate 32 7) 0).rotate_encryption_keys 40 "id1"
        (List.replicate 32 9) =
      (.error (.attributeError "_previous_key_id"),
       { encryption_keys := [("id0", List.replicate 32 7), ("id1", List.replicate 32 9)],
         active_key_id := "id1", previous_key_id := none, last_rotation := 40 }) ∧
    (SecurityConfig.init "id0" (List.replicate 32 7) 0).rotate_encryption_keys 10 "id1"
        (List.replicate 32 9) =
      (.ok none, SecurityConfig.init "id0" (List.replicate 32 7) 0) := by
  refine ⟨by decide, by decide, by decide, by decide, by decide⟩

theorem alookup_aset_self {α β : Type} [DecidableEq α] (l : List (α × β)) (k : α) (v : β) :
    alookup (aset l k v) k = some v := by
  simp [aset, alookup]

theorem alookup_aerase_self {α β : Type} [DecidableEq α] :
    ∀ (l : List (α × β)) (k : α), alookup (aerase l k) k = none
  | [], _ => rfl
  | (k', v') :: t, k => by
      by_cases h : k' = k
      · simpa [aerase, h] using alookup_aerase_self t k
      · simpa [aerase, alookup, h] using alookup_aerase_self t k

/-- After `n ≤ 5` consecutive failed calls the counter reads `n` and the
rate bucket lost `n` acquisitions; nothing else relevant changed. -/
theorem authIter_failed_state (m : AuthManager) (store : List (String × UserRec))
    (now : Nat) (email pw : String)
    (h0 : alookup m.failed_attempts email = none) (hrate : 6 ≤ m.rate_tokens)
    (hc : verifyCredentials store email pw = none) :
    ∀ n, n ≤ 5 →
      (alookup (authIter store now email pw n m).failed_attempts email).getD 0 = n ∧
      (authIter store now email pw n m).rate_tokens = m.rate_tokens - n := by
  intro n
  induction n with
  | zero => intro _; simp [authIter, h0]
  | succ n ih =>
    intro hn
    obtain ⟨hcnt, hrt⟩ := ih (by omega)
    simp only [authIter, AuthManager.authenticate_user]
    rw [if_neg (by omega), if_neg (by rw [hcnt]; simp [MAX_AUTH_ATTEMPTS]; omega), hc]
    refine ⟨?_, by simp [hrt]; omega⟩
    simp [alookup_aset_self, hcnt]

/-- Closed form of the lockout branch: with the counter at 5 or more and
the rate limiter not exhausted, `authenticate_user` fails locked and only
the rate bucket changes — independent of store and password. -/
theorem authenticate_user_locked_eq (M : AuthManager) (store : List (String × UserRec))
    (now : Nat) (email pw : String)
    (hrate : M.rate_tokens ≠ 0) (hcnt : 5 ≤ (alookup M.failed_attempts email).getD 0) :
    M.authenticate_user store now email pw =
      (.error (.auth ⟨"Account temporarily locked due to multiple failed attempts", "auth_001"⟩),
       { M with rate_tokens := M.rate_tokens - 1 }) := by
  simp only [AuthManager.authenticate_user]
  rw [if_neg hrate, if_pos (by simp only [MAX_AUTH_ATTEMPTS, ge_iff_le]; omega)]

/-- Closed form of the failed-credentials branch: below the threshold a
mismatch returns the invalid-credentials error and increments the
counter. -/
theorem authenticate_user_failed_eq (M : AuthManager) (store : List (String × UserRec))
    (now : Nat) (email pw : String)
    (hrate : M.rate_tokens ≠ 0) (hcnt : (alookup M.failed_attempts email).getD 0 < 5)
    (hc : verifyCredentials store email pw = none) :
    M.authenticate_user store now email pw =
      (.error (.auth ⟨"Invalid credentials", "auth_001"⟩),
       { M with rate_tokens := M.rate_tokens - 1,
                failed_attempts := aset M.failed_attempts email
                  ((alookup M.failed_attempts email).getD 0 + 1) }) := by
  simp only [AuthManager.authenticate_user]
  rw [if_neg hrate, if_neg (by simp only [MAX_AUTH_ATTEMPTS, ge_iff_le, not_le]; omega), hc]

/-- C4: (lockout) once the failed-attempt counter for an email has
reached 5, `authenticate_user` fails with the AuthenticationException
lockout message and its outcome is identical for every credential store
and password — the store is never consulted; (increment) a failed
attempt below the threshold raises the counter by one; (five-in-a-row)
from a clean counter, five consecutive failed calls each return the
invalid-credentials error and leave the counter at 5, after which a call
with the correct credentials still fails locked; (success) below the
threshold, correct credentials mint the access token (30-minute TTL) and
the refresh token (7-day TTL) with consecutive fresh jtis, return them
as a bearer pair, and delete the counter. -/
theorem c4_lockout_and_success (m : AuthManager) (store store2 : List (String × UserRec))
    (now : Nat) (email pw pw2 : String) :
    (5 ≤ (alookup m.failed_attempts email).getD 0 → m.rate_tokens ≠ 0 →
      m.authenticate_user store now email pw = m.authenticate_user store2 now email pw2 ∧
      (m.authenticate_user store now email pw).1 =
        .error (.auth ⟨"Account temporarily locked due to multiple failed attempts",
                       "auth_001"⟩)) ∧
    (m.rate_tokens ≠ 0 → (alookup m.failed_attempts email).getD 0 < 5 →
      verifyCredentials store email pw = none →
      (m.authenticate_user store now email pw).1 =
        .error (.auth ⟨"Invalid credentials", "auth_001"⟩) ∧
      (alookup (m.authenticate_user store now email pw).2.failed_attempts email).getD 0 =
        (alookup m.failed_attempts email).getD 0 + 1) ∧
    (alookup m.failed_attempts email = none → 6 ≤ m.rate_tokens →
      verifyCredentials store email pw = none →
      (∀ n, n < 5 →
        ((authIter store now email pw n m).authenticate_user store now email pw).1 =
          .error (.auth ⟨"Invalid credentials", "auth_001"⟩)) ∧
      (alookup (authIter store now email pw 5 m).failed_attempts email).getD 0 = 5 ∧
      ∀ storeGood pwGood,
        ((authIter store now email pw 5 m).authenticate_user storeGood now email pwGood).1 =
          .error (.auth ⟨"Account temporarily locked due to multiple failed attempts",
                         "auth_001"⟩)) ∧
    (∀ u, m.rate_tokens ≠ 0 → (alookup m.failed_attempts email).getD 0 < 5 →
      verifyCredentials store email pw = some u →
      alookup m.jwt.createCache (accessArgsOf u email) = none →
      alookup m.jwt.createCache (refreshArgsOf u) = none →
      (m.authenticate_user store now email pw).1 =
        .ok { access_token :=
                .signed (mintedPayload now (accessArgsOf u email) m.jwt.uuidSupply)
                  m.jwt.secret_key,
              refresh_token :=
                .signed (mintedPayload now (refreshArgsOf u) (m.jwt.uuidSupply + 1))
                  m.jwt.secret_key,
              token_type := "bearer", expires_in := 1800 } ∧
      alookup (m.authenticate_user store now email pw).2.failed_attempts email = none) := by
  refine ⟨?_, ?_, ?_, ?_⟩
  · intro hcnt hrate
    rw [authenticate_user_locked_eq m store now email pw hrate hcnt,
      authenticate_user_locked_eq m store2 now email pw2 hrate hcnt]
    exact ⟨rfl, rfl⟩
  · intro hrate hcnt hc
    rw [authenticate_user_failed_eq m store now email pw hrate hcnt hc]
    exact ⟨rfl, by simp [alookup_aset_self]⟩
  · intro h0 hrate hc
    refine ⟨?_, (authIter_failed_state m store now email pw h0 hrate hc 5 (by omega)).1, ?_⟩
    · intro n hn
      obtain ⟨hcnt, hrt⟩ := authIter_failed_state m store now email pw h0 hrate hc n (by omega)
      rw [authenticate_user_failed_eq (authIter store now email pw n m) store now email pw
        (by omega) (by omega) hc]
    · intro storeGood pwGood
      obtain ⟨hcnt, hrt⟩ := authIter_failed_state m store now email pw h0 hrate hc 5 (by omega)
      rw [authenticate_user_locked_eq (authIter store now email pw 5 m) storeGood now email
        pwGood (by omega) (by omega)]
  · intro u hrate hcnt hc hca hcr
    have hne : ¬ accessArgsOf u email = refreshArgsOf u := by
      simp [refreshArgsOf, accessArgsOf]
    simp only [AuthManager.authenticate_user]
    rw [if_neg hrate, if_neg (by simp [MAX_AUTH_ATTEMPTS]; omega), hc]
    simp only [JWTHandler.create_token, hca]
    rw [show alookup (((accessArgsOf u email),
        TokenStr.signed (mintedPayload now (accessArgsOf u email) m.jwt.uuidSupply)
          m.jwt.secret_key) :: m.jwt.createCache) (refreshArgsOf u) =
        none by simp [alookup, hne, hcr]]
    exact ⟨rfl, by simpa [aerase] using alookup_aerase_self m.failed_attempts email⟩

/-- Witness for C4: a concrete store with one user ("a@x" /
password "goodpw"); five wrong-password calls lock the account so the
sixth fails even with the correct password, while on a fresh manager the
correct password immediately yields the bearer token pair. -/
theorem c4_lockout_and_success_witness :
    ((authIter [("a@x", ⟨"u1", bcryptHash "goodpw", ["user"], []⟩)] 0 "a@x" "badpw" 5
        (AuthManager.init "k" 10)).authenticate_user
        [("a@x", ⟨"u1", bcryptHash "goodpw", ["user"], []⟩)] 0 "a@x" "goodpw").1 =
      .error (.auth ⟨"Account temporarily locked due to multiple failed attempts",
                     "auth_001"⟩) ∧
    ((AuthManager.init "k" 10).authenticate_user
        [("a@x", ⟨"u1", bcryptHash "goodpw", ["user"], []⟩)] 0 "a@x" "goodpw").1 =
      .ok { access_token :=
              .signed (mintedPayload 0 (accessArgsOf ⟨"u1", bcryptHash "goodpw", ["user"], []⟩
                "a@x") 0) "k",
            refresh_token :=
              .signed (mintedPayload 0 (refreshArgsOf ⟨"u1", bcryptHash "goodpw", ["user"], []⟩) 1)
                "k",
            token_type := "bearer", expires_in := 1800 } := by
  constructor
  · exact ((c4_lockout_and_success (AuthManager.init "k" 10)
      [("a@x", ⟨"u1", bcryptHash "goodpw", ["user"], []⟩)]
      [("a@x", ⟨"u1", bcryptHash "goodpw", ["user"], []⟩)] 0 "a@x" "badpw" "goodpw").2.2.1
      (by decide) (by decide) (by decide)).2.2
      [("a@x", ⟨"u1", bcryptHash "goodpw", ["user"], []⟩)] "goodpw"
  · exact ((c4_lockout_and_success (AuthManager.init "k" 10)
      [("a@x", ⟨"u1", bcryptHash "goodpw", ["user"], []⟩)]
      [("a@x", ⟨"u1", bcryptHash "goodpw", ["user"], []⟩)] 0 "a@x" "goodpw" "goodpw").2.2.2
      ⟨"u1", bcryptHash "goodpw", ["user"], []⟩
      (by decide) (by decide) (by decide) (by decide) (by decide)).1

end SecurityCore
